import Mathlib

/-!
Shallow embedding of the occupancy-tracking engine (src/core/occupancy_engine.py),
the local store operations it uses (src/database/db.py), and the cloud
synchronization service (src/core/sync_service.py).

Modelling conventions:
* Wall-clock instants (Python `time.time()` floats and `tashkent_now()` datetimes)
  are modelled as rationals on a single timeline; each operation that reads the
  clock takes the instant `now : ℚ` explicitly.
* Python truthiness tests on optional ints / floats (`if x:`) are modelled by
  `truthyNat` / `truthyTime` (0 and None are falsy); `is None` tests are
  modelled by `Option` pattern matching.
* Database exceptions swallowed by the engine's `try/except` blocks are
  modelled by the flag `dbOk : Bool`: when `dbOk = false` the store mutation
  raises, so the store is left unchanged and control continues after the
  handler, exactly as in the source.
* The SQLAlchemy tables are modelled as lists of records in insertion order,
  with autoincrement ids supplied by `next_session_id` / `next_visit_id`.
-/

namespace Cameras

/-- Python truthiness of an optional integer (both `None` and `0` are falsy). -/
def truthyNat : Option Nat → Bool
  | none => false
  | some n => n != 0

/-- Python truthiness of an optional float timestamp (both `None` and `0.0` are falsy). -/
def truthyTime : Option ℚ → Bool
  | none => false
  | some t => t != 0

/-- Zone occupancy states (`ZoneState` in occupancy_engine.py). -/
inductive ZoneState
  | VACANT
  | CHECKING_ENTRY
  | OCCUPIED
  | CHECKING_EXIT
  deriving DecidableEq, Repr

/-- Per-zone tracking state (`ZoneTracker` dataclass in occupancy_engine.py). -/
structure ZoneTracker where
  zone_id : Nat
  state : ZoneState
  entry_start_time : Option ℚ
  exit_start_time : Option ℚ
  timer_start_time : Option ℚ
  accumulated_time : ℚ
  session_start : Option ℚ
  checkpoint_db_id : Option Nat
  last_checkpoint_time : Option ℚ
  deriving DecidableEq, Repr

/-- The dataclass defaults: a freshly created (or fully reset) tracker. -/
def ZoneTracker.init (zone_id : Nat) : ZoneTracker :=
  { zone_id := zone_id
    state := ZoneState.VACANT
    entry_start_time := none
    exit_start_time := none
    timer_start_time := none
    accumulated_time := 0
    session_start := none
    checkpoint_db_id := none
    last_checkpoint_time := none }

/-- Zone type dispatch (`zone_type == "client"` vs anything else) in update. -/
inductive ZoneType
  | employee
  | client
  deriving DecidableEq, Repr

/-- Employee row (models.py `Employee`; only the fields the core reads). -/
structure Employee where
  id : Nat
  is_active : Nat
  deriving DecidableEq, Repr

/-- Place/zone row (models.py `Place`; only the fields the core reads). -/
structure Place where
  id : Nat
  employee_id : Option Nat
  linked_employee_id : Option Nat
  zone_type : ZoneType
  deriving DecidableEq, Repr

/-- Work session row (models.py `Session`). -/
structure SessionRec where
  id : Nat
  place_id : Option Nat
  employee_id : Option Nat
  start_time : Option ℚ
  end_time : Option ℚ
  duration_seconds : ℚ
  is_synced : Nat
  is_checkpoint : Nat
  deriving DecidableEq, Repr

/-- Client visit row (models.py `ClientVisit`). -/
structure ClientVisitRec where
  id : Nat
  place_id : Option Nat
  employee_id : Option Nat
  track_id : Nat
  enter_time : Option ℚ
  exit_time : Option ℚ
  duration_seconds : ℚ
  is_synced : Nat
  is_checkpoint : Nat
  deriving DecidableEq, Repr

/-- Placeholder session row used only as a `getD` default in statements. -/
def dummySession : SessionRec :=
  { id := 0, place_id := none, employee_id := none, start_time := none
    end_time := none, duration_seconds := 0, is_synced := 0, is_checkpoint := 0 }

/-- Placeholder client visit row used only as a `getD` default in statements. -/
def dummyVisit : ClientVisitRec :=
  { id := 0, place_id := none, employee_id := none, track_id := 0
    enter_time := none, exit_time := none, duration_seconds := 0
    is_synced := 0, is_checkpoint := 0 }

/-- The durable local store (db.py `Database`): tables in insertion order plus
the SQLite autoincrement counters. -/
structure Database where
  places : List Place
  employees : List Employee
  sessions : List SessionRec
  client_visits : List ClientVisitRec
  next_session_id : Nat
  next_visit_id : Nat
  deriving DecidableEq, Repr

/-- Update the first session row with the given id (SQLAlchemy
`query(Session).filter(Session.id == sid).first()` then mutate). -/
def updateFirstSession (sid : Nat) (f : SessionRec → SessionRec) :
    List SessionRec → List SessionRec
  | [] => []
  | r :: rs =>
    if r.id == sid then f r :: rs else r :: updateFirstSession sid f rs

/-- Update the first client visit row with the given id. -/
def updateFirstVisit (vid : Nat) (f : ClientVisitRec → ClientVisitRec) :
    List ClientVisitRec → List ClientVisitRec
  | [] => []
  | r :: rs =>
    if r.id == vid then f r :: rs else r :: updateFirstVisit vid f rs

/-- db.get_employee_by_place: look up the place, then (if it has a truthy
`employee_id`) the employee; `None` when either lookup fails. -/
def Database.getEmployeeByPlace (db : Database) (place_id : Nat) : Option Employee :=
  match db.places.find? (fun p => p.id == place_id) with
  | some p =>
    if truthyNat p.employee_id then
      db.employees.find? (fun e => e.id == p.employee_id.getD 0)
    else none
  | none => none

/-- db.save_session: insert a finalized work session row (model defaults
`is_synced = 0`, `is_checkpoint = 0`); returns the new row's id. -/
def Database.saveSession (db : Database) (place_id : Nat) (start_time : Option ℚ)
    (end_time : Option ℚ) (duration_seconds : ℚ) (employee_id : Option Nat) :
    Database × Nat :=
  let r : SessionRec :=
    { id := db.next_session_id, place_id := some place_id
      employee_id := employee_id, start_time := start_time, end_time := end_time
      duration_seconds := duration_seconds, is_synced := 0, is_checkpoint := 0 }
  ({ db with sessions := db.sessions ++ [r],
             next_session_id := db.next_session_id + 1 }, r.id)

/-- db.save_session_checkpoint: insert an in-progress session row with
`is_checkpoint = 1`, `duration_seconds = 0.0`, `end_time = tashkent_now()`;
returns the new row's id. -/
def Database.saveSessionCheckpoint (db : Database) (place_id : Nat)
    (employee_id : Option Nat) (start_time : Option ℚ) (now : ℚ) :
    Database × Nat :=
  let r : SessionRec :=
    { id := db.next_session_id, place_id := some place_id
      employee_id := employee_id, start_time := start_time, end_time := some now
      duration_seconds := 0, is_synced := 0, is_checkpoint := 1 }
  ({ db with sessions := db.sessions ++ [r],
             next_session_id := db.next_session_id + 1 }, r.id)

/-- db.update_session_checkpoint: refresh the end time and duration of an
existing checkpoint row in place. -/
def Database.updateSessionCheckpoint (db : Database) (session_id : Nat)
    (end_time : ℚ) (duration_seconds : ℚ) : Database :=
  let f : SessionRec → SessionRec := fun r =>
    { r with end_time := some end_time, duration_seconds := duration_seconds }
  { db with sessions := updateFirstSession session_id f db.sessions }

/-- db.finalize_session_checkpoint: write the final end time and duration and
flip `is_checkpoint` to 0. -/
def Database.finalizeSessionCheckpoint (db : Database) (session_id : Nat)
    (end_time : ℚ) (duration_seconds : ℚ) : Database :=
  let f : SessionRec → SessionRec := fun r =>
    { r with end_time := some end_time, duration_seconds := duration_seconds,
             is_checkpoint := 0 }
  { db with sessions := updateFirstSession session_id f db.sessions }

/-- db.save_client_visit: insert a finalized client visit row. -/
def Database.saveClientVisit (db : Database) (place_id : Nat)
    (employee_id : Nat) (track_id : Nat) (enter_time : Option ℚ)
    (exit_time : Option ℚ) (duration_seconds : ℚ) : Database × Nat :=
  let r : ClientVisitRec :=
    { id := db.next_visit_id, place_id := some place_id
      employee_id := some employee_id, track_id := track_id
      enter_time := enter_time, exit_time := exit_time
      duration_seconds := duration_seconds, is_synced := 0, is_checkpoint := 0 }
  ({ db with client_visits := db.client_visits ++ [r],
             next_visit_id := db.next_visit_id + 1 }, r.id)

/-- db.save_client_visit_checkpoint: insert an in-progress client visit row
with `is_checkpoint = 1`, `duration_seconds = 0.0`, `exit_time = tashkent_now()`. -/
def Database.saveClientVisitCheckpoint (db : Database) (place_id : Nat)
    (employee_id : Nat) (track_id : Nat) (enter_time : Option ℚ) (now : ℚ) :
    Database × Nat :=
  let r : ClientVisitRec :=
    { id := db.next_visit_id, place_id := some place_id
      employee_id := some employee_id, track_id := track_id
      enter_time := enter_time, exit_time := some now
      duration_seconds := 0, is_synced := 0, is_checkpoint := 1 }
  ({ db with client_visits := db.client_visits ++ [r],
             next_visit_id := db.next_visit_id + 1 }, r.id)

/-- db.update_client_visit_checkpoint. -/
def Database.updateClientVisitCheckpoint (db : Database) (visit_id : Nat)
    (exit_time : ℚ) (duration_seconds : ℚ) : Database :=
  let f : ClientVisitRec → ClientVisitRec := fun r =>
    { r with exit_time := some exit_time, duration_seconds := duration_seconds }
  { db with client_visits := updateFirstVisit visit_id f db.client_visits }

/-- db.finalize_client_visit_checkpoint. -/
def Database.finalizeClientVisitCheckpoint (db : Database) (visit_id : Nat)
    (exit_time : ℚ) (duration_seconds : ℚ) : Database :=
  let f : ClientVisitRec → ClientVisitRec := fun r =>
    { r with exit_time := some exit_time, duration_seconds := duration_seconds,
             is_checkpoint := 0 }
  { db with client_visits := updateFirstVisit visit_id f db.client_visits }

/-- db.finalize_stale_checkpoints: the startup crash-recovery pass — flip every
row still marked `is_checkpoint = 1` (both tables) to `is_checkpoint = 0`,
touching nothing else. -/
def Database.finalizeStaleCheckpoints (db : Database) : Database :=
  let fs : SessionRec → SessionRec := fun r =>
    if r.is_checkpoint == 1 then { r with is_checkpoint := 0 } else r
  let fv : ClientVisitRec → ClientVisitRec := fun r =>
    if r.is_checkpoint == 1 then { r with is_checkpoint := 0 } else r
  { db with sessions := db.sessions.map fs,
            client_visits := db.client_visits.map fv }

/-- db.get_unsynced_sessions: completed sessions pending synchronization
(`is_synced = 0` and `is_checkpoint = 0`), bounded by `limit`, in table order. -/
def Database.getUnsyncedSessions (db : Database) (limit : Nat) : List SessionRec :=
  (db.sessions.filter (fun r => r.is_synced == 0 && r.is_checkpoint == 0)).take limit

/-- db.get_unsynced_client_visits. -/
def Database.getUnsyncedClientVisits (db : Database) (limit : Nat) : List ClientVisitRec :=
  (db.client_visits.filter (fun r => r.is_synced == 0 && r.is_checkpoint == 0)).take limit

/-- db.mark_as_synced for the sessions table. -/
def Database.markSessionsSynced (db : Database) (ids : List Nat) : Database :=
  if ids.isEmpty then db
  else
    let f : SessionRec → SessionRec := fun r =>
      if ids.contains r.id then { r with is_synced := 1 } else r
    { db with sessions := db.sessions.map f }

/-- db.mark_as_synced for the client visits table. -/
def Database.markVisitsSynced (db : Database) (ids : List Nat) : Database :=
  if ids.isEmpty then db
  else
    let f : ClientVisitRec → ClientVisitRec := fun r =>
      if ids.contains r.id then { r with is_synced := 1 } else r
    { db with client_visits := db.client_visits.map f }

/-- Engine configuration: the threshold values read from config.py. -/
structure EngineConfig where
  ENTRY_THRESHOLD : ℚ
  EXIT_THRESHOLD : ℚ
  CLIENT_ENTRY_THRESHOLD : ℚ
  CLIENT_EXIT_THRESHOLD : ℚ
  CHECKPOINT_INTERVAL : ℚ
  deriving DecidableEq, Repr

/-- Observable side effects of the engine other than store writes: the
`on_session_complete` callback and the unresolvable-link warning log line. -/
inductive EngineEvent
  | sessionComplete (zone_id : Nat) (duration : ℚ)
  | warnNoLink (zone_id : Nat)
  deriving DecidableEq, Repr

/-- The entry threshold `update` selects for a zone type. -/
def EngineConfig.entryThresh (cfg : EngineConfig) : ZoneType → ℚ
  | ZoneType.client => cfg.CLIENT_ENTRY_THRESHOLD
  | ZoneType.employee => cfg.ENTRY_THRESHOLD

/-- The exit threshold `update` selects for a zone type. -/
def EngineConfig.exitThresh (cfg : EngineConfig) : ZoneType → ℚ
  | ZoneType.client => cfg.CLIENT_EXIT_THRESHOLD
  | ZoneType.employee => cfg.EXIT_THRESHOLD

/-- The timer-flush block `if tracker.timer_start_time:` shared verbatim by
the pause transition in `update` and by `force_save_session`: fold a running
timer into `accumulated_time` and stop the timer. -/
def flushTimer (tr : ZoneTracker) (now : ℚ) : ZoneTracker :=
  let acc' := tr.accumulated_time + (now - tr.timer_start_time.getD 0)
  if truthyTime tr.timer_start_time then
    { tr with accumulated_time := acc', timer_start_time := none }
  else tr

/-- OccupancyEngine._complete_session: compute the final duration from
`accumulated_time`, persist (finalize the checkpoint row in place, or insert a
fresh finalized row) when the guard holds, then reset the tracker to its
initial configuration and fire the completion callback. -/
def completeSession (db : Database) (tr : ZoneTracker) (now : ℚ)
    (zone_type : ZoneType) (linked_employee_id : Option Nat) (dbOk : Bool) :
    ZoneTracker × Database × List EngineEvent :=
  let duration := tr.accumulated_time
  let saved : Database × List EngineEvent :=
    if truthyNat tr.checkpoint_db_id ||
       (tr.session_start.isSome && decide (0 < duration)) then
      match zone_type with
      | ZoneType.client =>
        let real_employee_id : Option Nat :=
          if truthyNat linked_employee_id then
            (db.getEmployeeByPlace (linked_employee_id.getD 0)).map (fun e => e.id)
          else none
        if truthyNat real_employee_id then
          let db' :=
            if truthyNat tr.checkpoint_db_id then
              db.finalizeClientVisitCheckpoint (tr.checkpoint_db_id.getD 0) now duration
            else
              (db.saveClientVisit tr.zone_id (real_employee_id.getD 0) 0
                tr.session_start (some now) duration).1
          (if dbOk then db' else db, [])
        else
          (db, [EngineEvent.warnNoLink tr.zone_id])
      | ZoneType.employee =>
        let employee := db.getEmployeeByPlace tr.zone_id
        let employee_id := employee.map (fun e => e.id)
        let db' :=
          if truthyNat tr.checkpoint_db_id then
            db.finalizeSessionCheckpoint (tr.checkpoint_db_id.getD 0) now duration
          else
            (db.saveSession tr.zone_id tr.session_start (some now) duration
              employee_id).1
        (if dbOk then db' else db, [])
    else (db, [])
  (ZoneTracker.init tr.zone_id, saved.1,
    saved.2 ++ [EngineEvent.sessionComplete tr.zone_id duration])

/-- OccupancyEngine._save_or_update_checkpoint: persist the current elapsed
duration of an active session — first checkpoint inserts, later ones update in
place. A raised store exception (`dbOk = false`) is swallowed. -/
def saveOrUpdateCheckpoint (db : Database) (tr : ZoneTracker) (now : ℚ)
    (zone_type : ZoneType) (linked_employee_id : Option Nat) (dbOk : Bool) :
    ZoneTracker × Database :=
  if tr.session_start.isNone then (tr, db)
  else
    let duration := tr.accumulated_time +
      (if truthyTime tr.timer_start_time then now - tr.timer_start_time.getD 0 else 0)
    match zone_type with
    | ZoneType.client =>
      if !truthyNat linked_employee_id then (tr, db)
      else
        let real_emp_id :=
          (db.getEmployeeByPlace (linked_employee_id.getD 0)).map (fun e => e.id)
        if !truthyNat real_emp_id then (tr, db)
        else if !dbOk then (tr, db)
        else
          match tr.checkpoint_db_id with
          | none =>
            let res := db.saveClientVisitCheckpoint tr.zone_id
              (real_emp_id.getD 0) 0 tr.session_start now
            ({ tr with checkpoint_db_id := some res.2 }, res.1)
          | some cid => (tr, db.updateClientVisitCheckpoint cid now duration)
    | ZoneType.employee =>
      let employee_id := (db.getEmployeeByPlace tr.zone_id).map (fun e => e.id)
      if !dbOk then (tr, db)
      else
        match tr.checkpoint_db_id with
        | none =>
          let res := db.saveSessionCheckpoint tr.zone_id employee_id
            tr.session_start now
          ({ tr with checkpoint_db_id := some res.2 }, res.1)
        | some cid => (tr, db.updateSessionCheckpoint cid now duration)

/-- OccupancyEngine.update: one state-machine step for one zone, driven by one
presence sample at instant `now`. -/
def update (cfg : EngineConfig) (db : Database) (tr : ZoneTracker) (now : ℚ)
    (is_person_present : Bool) (zone_type : ZoneType)
    (linked_employee_id : Option Nat) (dbOk : Bool) :
    ZoneTracker × Database × List EngineEvent :=
  let entry_thresh := cfg.entryThresh zone_type
  let exit_thresh := cfg.exitThresh zone_type
  match tr.state with
  | ZoneState.VACANT =>
    if is_person_present then
      ({ tr with state := ZoneState.CHECKING_ENTRY, entry_start_time := some now },
        db, [])
    else (tr, db, [])
  | ZoneState.CHECKING_ENTRY =>
    if is_person_present then
      match tr.entry_start_time with
      | some est =>
        if entry_thresh ≤ now - est then
          ({ tr with state := ZoneState.OCCUPIED,
                     timer_start_time := some est,
                     accumulated_time := 0,
                     session_start := some (now - entry_thresh),
                     last_checkpoint_time := some now }, db, [])
        else (tr, db, [])
      | none => (tr, db, [])
    else
      ({ tr with state := ZoneState.VACANT, entry_start_time := none }, db, [])
  | ZoneState.OCCUPIED =>
    if !is_person_present then
      let tr1 := flushTimer tr now
      ({ tr1 with state := ZoneState.CHECKING_EXIT, exit_start_time := some now },
        db, [])
    else
      if truthyTime tr.last_checkpoint_time &&
         decide (cfg.CHECKPOINT_INTERVAL ≤ now - tr.last_checkpoint_time.getD 0) then
        let res := saveOrUpdateCheckpoint db tr now zone_type linked_employee_id dbOk
        ({ res.1 with last_checkpoint_time := some now }, res.2, [])
      else (tr, db, [])
  | ZoneState.CHECKING_EXIT =>
    if is_person_present then
      ({ tr with state := ZoneState.OCCUPIED, timer_start_time := some now,
                 exit_start_time := none }, db, [])
    else
      match tr.exit_start_time with
      | some est =>
        if exit_thresh ≤ now - est then
          completeSession db tr now zone_type linked_employee_id dbOk
        else (tr, db, [])
      | none => (tr, db, [])

/-- OccupancyEngine.force_save_session: flush a running timer into
`accumulated_time`, then persist the session as a work Session (checkpoint
finalized in place, otherwise a fresh insert) when `session_start` is set and
the duration exceeds the 1-second noise floor. The tracker is not reset. -/
def forceSaveSession (db : Database) (tr : ZoneTracker) (now : ℚ) (dbOk : Bool) :
    ZoneTracker × Database :=
  let tr1 := flushTimer tr now
  let duration := tr1.accumulated_time
  if tr1.session_start.isSome && decide (1 < duration) then
    let employee_id := (db.getEmployeeByPlace tr1.zone_id).map (fun e => e.id)
    let db' :=
      if truthyNat tr1.checkpoint_db_id then
        db.finalizeSessionCheckpoint (tr1.checkpoint_db_id.getD 0) now duration
      else
        (db.saveSession tr1.zone_id tr1.session_start (some now) duration
          employee_id).1
    (tr1, if dbOk then db' else db)
  else (tr1, db)

/-- OccupancyEngine.shutdown: walk the tracker map in insertion order and force
save every zone that is OCCUPIED or CHECKING_EXIT. -/
def shutdown (db : Database) (trackers : List ZoneTracker) (now : ℚ)
    (dbOk : Bool) : List ZoneTracker × Database :=
  match trackers with
  | [] => ([], db)
  | tr :: rest =>
    let first :=
      if tr.state == ZoneState.OCCUPIED || tr.state == ZoneState.CHECKING_EXIT then
        forceSaveSession db tr now dbOk
      else (tr, db)
    let restRes := shutdown first.2 rest now dbOk
    (first.1 :: restRes.1, restRes.2)

/-- One presence sample: the instant of the frame and the presence boolean. -/
abbrev Sample := ℚ × Bool

/-- Run `update` over a list of presence samples for one zone, threading the
tracker and the store and collecting the emitted events. -/
def runUpdates (cfg : EngineConfig) (zone_type : ZoneType)
    (linked_employee_id : Option Nat) (dbOk : Bool) :
    List Sample → ZoneTracker × Database × List EngineEvent →
    ZoneTracker × Database × List EngineEvent
  | [], st => st
  | s :: rest, (tr, db, evs) =>
    let res := update cfg db tr s.1 s.2 zone_type linked_employee_id dbOk
    runUpdates cfg zone_type linked_employee_id dbOk rest
      (res.1, res.2.1, evs ++ res.2.2)

/-- Run a sample list from a freshly created tracker (the lazy
`get_or_create_tracker` path) over an initial store. -/
def runFromVacant (cfg : EngineConfig) (zone_type : ZoneType)
    (linked_employee_id : Option Nat) (dbOk : Bool) (zone_id : Nat)
    (db : Database) (ss : List Sample) : ZoneTracker × Database × List EngineEvent :=
  runUpdates cfg zone_type linked_employee_id dbOk ss
    (ZoneTracker.init zone_id, db, [])

/-! ## Cloud Synchronization Service (src/core/sync_service.py) -/

/-- Sync tuning constant SYNC_INTERVAL_NORMAL = 10.0. -/
def SYNC_INTERVAL_NORMAL : ℚ := 10

/-- Sync tuning constant SYNC_INTERVAL_MAX = 300.0 (5 min cap). -/
def SYNC_INTERVAL_MAX : ℚ := 300

/-- Sync tuning constant BATCH_SIZE = 50. -/
def BATCH_SIZE : Nat := 50

/-- Sync tuning constant MAX_BATCHES_PER_CYCLE = 5. -/
def MAX_BATCHES_PER_CYCLE : Nat := 5

/-- Sync tuning constant BACKOFF_MULTIPLIER = 2.0. -/
def BACKOFF_MULTIPLIER : ℚ := 2

/-- Sync tuning constant JITTER_MAX = 5.0. -/
def JITTER_MAX : ℚ := 5

/-- The CloudSyncService backoff state (`_consecutive_failures`,
`_current_sync_interval`, `_is_healthy`). -/
structure BackoffState where
  consecutive_failures : Nat
  current_sync_interval : ℚ
  is_healthy : Bool
  deriving DecidableEq, Repr

/-- The backoff state a freshly constructed service starts in. -/
def BackoffState.init : BackoffState :=
  { consecutive_failures := 0
    current_sync_interval := SYNC_INTERVAL_NORMAL
    is_healthy := true }

/-- CloudSyncService._on_sync_success: restore the normal sync interval. -/
def onSyncSuccess (_st : BackoffState) : BackoffState :=
  { consecutive_failures := 0
    current_sync_interval := SYNC_INTERVAL_NORMAL
    is_healthy := true }

/-- CloudSyncService._on_sync_failure: exponential backoff with jitter.
`random.uniform(0, JITTER_MAX)` is modelled by the explicit argument
`jitter`; a run of the service corresponds to some sequence of jitter
draws in `[0, JITTER_MAX]`. -/
def onSyncFailure (st : BackoffState) (jitter : ℚ) : BackoffState :=
  let failures := st.consecutive_failures + 1
  let backoff :=
    min (SYNC_INTERVAL_NORMAL * BACKOFF_MULTIPLIER ^ failures) SYNC_INTERVAL_MAX
  { consecutive_failures := failures
    current_sync_interval := backoff + jitter
    is_healthy := false }

/-- A sessions row at the remote store, keyed by `(branch_id, local_id)`. -/
structure CloudSessionRow where
  local_id : Nat
  branch_id : Nat
  place_id : Option Nat
  employee_id : Option Nat
  start_time : Option ℚ
  end_time : Option ℚ
  duration_seconds : ℚ
  is_synced : Nat
  is_checkpoint : Nat
  deriving DecidableEq, Repr

/-- A client_visits row at the remote store, keyed by `(branch_id, local_id)`. -/
structure CloudVisitRow where
  local_id : Nat
  branch_id : Nat
  place_id : Option Nat
  employee_id : Option Nat
  track_id : Nat
  enter_time : Option ℚ
  exit_time : Option ℚ
  duration_seconds : ℚ
  is_synced : Nat
  is_checkpoint : Nat
  deriving DecidableEq, Repr

/-- The VALUES tuple of the finalized-session upsert (is_synced=1,
is_checkpoint=0). -/
def sessionCloudRow (branch : Nat) (r : SessionRec) : CloudSessionRow :=
  { local_id := r.id, branch_id := branch, place_id := r.place_id
    employee_id := r.employee_id, start_time := r.start_time
    end_time := r.end_time, duration_seconds := r.duration_seconds
    is_synced := 1, is_checkpoint := 0 }

/-- The VALUES tuple of the finalized-client-visit upsert. -/
def visitCloudRow (branch : Nat) (r : ClientVisitRec) : CloudVisitRow :=
  { local_id := r.id, branch_id := branch, place_id := r.place_id
    employee_id := r.employee_id, track_id := r.track_id
    enter_time := r.enter_time, exit_time := r.exit_time
    duration_seconds := r.duration_seconds, is_synced := 1, is_checkpoint := 0 }

/-- INSERT ... ON CONFLICT (branch_id, local_id) DO UPDATE for the sessions
table: on conflict the new end time, duration and flags win. -/
def upsertCloudSession (rows : List CloudSessionRow) (row : CloudSessionRow) :
    List CloudSessionRow :=
  if rows.any (fun r => r.branch_id == row.branch_id && r.local_id == row.local_id) then
    let f : CloudSessionRow → CloudSessionRow := fun r =>
      if r.branch_id == row.branch_id && r.local_id == row.local_id then
        { r with end_time := row.end_time,
                 duration_seconds := row.duration_seconds,
                 is_synced := 1, is_checkpoint := 0 }
      else r
    rows.map f
  else rows ++ [row]

/-- INSERT ... ON CONFLICT (branch_id, local_id) DO UPDATE for the
client_visits table. -/
def upsertCloudVisit (rows : List CloudVisitRow) (row : CloudVisitRow) :
    List CloudVisitRow :=
  if rows.any (fun r => r.branch_id == row.branch_id && r.local_id == row.local_id) then
    let f : CloudVisitRow → CloudVisitRow := fun r =>
      if r.branch_id == row.branch_id && r.local_id == row.local_id then
        { r with exit_time := row.exit_time,
                 duration_seconds := row.duration_seconds,
                 is_synced := 1, is_checkpoint := 0 }
      else r
    rows.map f
  else rows ++ [row]

/-- CloudSyncService._upload_to_cloud_db for a sessions batch: on a committed
transaction every record of the batch is upserted; on failure the transaction
rolls back and the remote store is unchanged. -/
def uploadSessionsToCloud (cloud : List CloudSessionRow) (branch : Nat)
    (records : List SessionRec) (committed : Bool) : List CloudSessionRow :=
  if committed then
    records.foldl (fun c r => upsertCloudSession c (sessionCloudRow branch r)) cloud
  else cloud

/-- CloudSyncService._upload_to_cloud_db for a client-visits batch. -/
def uploadVisitsToCloud (cloud : List CloudVisitRow) (branch : Nat)
    (records : List ClientVisitRec) (committed : Bool) : List CloudVisitRow :=
  if committed then
    records.foldl (fun c r => upsertCloudVisit c (visitCloudRow branch r)) cloud
  else cloud

/-- Which entity kind an upload attempt carried. -/
inductive SyncKind
  | session
  | client_visit
  deriving DecidableEq, Repr

/-- The audit trail of one `_sync_data` pass: each upload attempt with the ids
of the batch and whether the remote commit succeeded. -/
structure SyncAttempt where
  kind : SyncKind
  ids : List Nat
  ok : Bool
  deriving DecidableEq, Repr

/-- The outcome of one `_sync_data` pass. -/
structure SyncResult where
  db : Database
  cloudSessions : List CloudSessionRow
  cloudVisits : List CloudVisitRow
  attempts : List SyncAttempt
  value : Bool
  deriving DecidableEq, Repr

/-- The `while batches_processed < MAX_BATCHES_PER_CYCLE` loop of
CloudSyncService._sync_data (non-mock path). The network is modelled by
`outcomes`: the committed/failed result of each successive remote
transaction (an exhausted oracle means the connection is down). On an upload
failure the function returns immediately with the accumulated `any_success`;
when a pull finds no data at all the pass returns `true`. -/
def syncDataLoop (branch : Nat) : Nat → Database → List CloudSessionRow →
    List CloudVisitRow → List Bool → List SyncAttempt → Bool → SyncResult
  | 0, db, cs, cv, _outcomes, attempts, anySuccess =>
    ⟨db, cs, cv, attempts, anySuccess⟩
  | fuel + 1, db, cs, cv, outcomes, attempts, anySuccess =>
    let sdata := db.getUnsyncedSessions BATCH_SIZE
    let sids := sdata.map (fun r => r.id)
    if sdata.isEmpty then
      let vdata := db.getUnsyncedClientVisits BATCH_SIZE
      let vids := vdata.map (fun r => r.id)
      if vdata.isEmpty then ⟨db, cs, cv, attempts, true⟩
      else if outcomes.headD false then
        syncDataLoop branch fuel (db.markVisitsSynced vids) cs
          (uploadVisitsToCloud cv branch vdata true) outcomes.tail
          (attempts ++ [⟨SyncKind.client_visit, vids, true⟩]) true
      else ⟨db, cs, cv, attempts ++ [⟨SyncKind.client_visit, vids, false⟩], anySuccess⟩
    else if outcomes.headD false then
      let db1 := db.markSessionsSynced sids
      let cs1 := uploadSessionsToCloud cs branch sdata true
      let out1 := outcomes.tail
      let att1 := attempts ++ [⟨SyncKind.session, sids, true⟩]
      let vdata := db1.getUnsyncedClientVisits BATCH_SIZE
      let vids := vdata.map (fun r => r.id)
      if vdata.isEmpty then
        syncDataLoop branch fuel db1 cs1 cv out1 att1 true
      else if out1.headD false then
        syncDataLoop branch fuel (db1.markVisitsSynced vids) cs1
          (uploadVisitsToCloud cv branch vdata true) out1.tail
          (att1 ++ [⟨SyncKind.client_visit, vids, true⟩]) true
      else ⟨db1, cs1, cv, att1 ++ [⟨SyncKind.client_visit, vids, false⟩], true⟩
    else ⟨db, cs, cv, attempts ++ [⟨SyncKind.session, sids, false⟩], anySuccess⟩

/-- CloudSyncService._sync_data, non-mock path. -/
def syncData (branch : Nat) (db : Database) (cs : List CloudSessionRow)
    (cv : List CloudVisitRow) (outcomes : List Bool) : SyncResult :=
  syncDataLoop branch MAX_BATCHES_PER_CYCLE db cs cv outcomes [] false

/-! ## Helper observations used only in theorem statements -/

/-- The duration stored on the first sessions row with the given id. -/
def sessionDurationOf (db : Database) (sid : Nat) : Option ℚ :=
  (db.sessions.find? (fun r => r.id == sid)).map (fun r => r.duration_seconds)

/-- The duration stored on the first client_visits row with the given id. -/
def visitDurationOf (db : Database) (vid : Nat) : Option ℚ :=
  (db.client_visits.find? (fun r => r.id == vid)).map (fun r => r.duration_seconds)

/-- Whether a client zone's `linked_employee_id` (a zone id) resolves through
that zone to a credited employee — the resolution `_complete_session` and
`_save_or_update_checkpoint` perform. -/
def linkResolvable (db : Database) (linked_employee_id : Option Nat) : Bool :=
  truthyNat (if truthyNat linked_employee_id then
    (db.getEmployeeByPlace (linked_employee_id.getD 0)).map (fun e => e.id)
  else none)

/-- A session row is synced in the store. -/
def sessionSynced (db : Database) (sid : Nat) : Bool :=
  db.sessions.any (fun r => r.id == sid && r.is_synced == 1)

/-- Whether the remote sessions table holds a row for the composite key
`(branch_id, local_id)`. -/
def cloudHasSessionKey (rows : List CloudSessionRow) (b lid : Nat) : Bool :=
  rows.any (fun r => r.branch_id == b && r.local_id == lid)

/-- Whether the remote client_visits table holds a row for the composite key
`(branch_id, local_id)`. -/
def cloudHasVisitKey (rows : List CloudVisitRow) (b lid : Nat) : Bool :=
  rows.any (fun r => r.branch_id == b && r.local_id == lid)

/-! ## Theorems -/

/-- C10: every finalization through `_complete_session` resets the tracker to
the initial VACANT configuration (all timing fields cleared, checkpoint
reference dropped) and fires the `on_session_complete` callback with the
computed duration, unconditionally — in particular even when the store save
raises, in which case the store is left unchanged and the session is silently
discarded (no atomicity, no retry). -/
theorem completeSession_resets_and_fires_callback
    (db : Database) (tr : ZoneTracker) (now : ℚ) (zone_type : ZoneType)
    (linked_employee_id : Option Nat) (dbOk : Bool) :
    (completeSession db tr now zone_type linked_employee_id dbOk).1 =
        ZoneTracker.init tr.zone_id ∧
    (∃ evs, (completeSession db tr now zone_type linked_employee_id dbOk).2.2 =
        evs ++ [EngineEvent.sessionComplete tr.zone_id tr.accumulated_time]) ∧
    (dbOk = false →
      (completeSession db tr now zone_type linked_employee_id dbOk).2.1 = db) := by
  refine ⟨rfl, ⟨_, rfl⟩, ?_⟩
  rintro rfl
  simp only [completeSession]
  split
  · cases zone_type
    case employee => simp
    case client =>
      simp
      split
      · split <;> rfl
      · rfl
  · rfl

/-- Helper: updating the first row with a given id rewrites exactly the row
`find?` locates, provided the update preserves the id. -/
theorem find?_updateFirstSession (sid : Nat) (f : SessionRec → SessionRec)
    (hf : ∀ r, (f r).id = r.id) (l : List SessionRec) :
    (updateFirstSession sid f l).find? (fun r => r.id == sid) =
      (l.find? (fun r => r.id == sid)).map f := by
  induction l with
  | nil => rfl
  | cons r rs ih =>
    by_cases h : r.id = sid
    · simp [updateFirstSession, List.find?_cons, h, hf]
    · simp [updateFirstSession, List.find?_cons, h, ih]

/-- Helper: the client-visit analogue of `find?_updateFirstSession`. -/
theorem find?_updateFirstVisit (vid : Nat) (f : ClientVisitRec → ClientVisitRec)
    (hf : ∀ r, (f r).id = r.id) (l : List ClientVisitRec) :
    (updateFirstVisit vid f l).find? (fun r => r.id == vid) =
      (l.find? (fun r => r.id == vid)).map f := by
  induction l with
  | nil => rfl
  | cons r rs ih =>
    by_cases h : r.id = vid
    · simp [updateFirstVisit, List.find?_cons, h, hf]
    · simp [updateFirstVisit, List.find?_cons, h, ih]

/-- C3: the `duration_seconds` written at finalization is computed purely from
the tracker's `accumulated_time`: a session that passed through checkpoint
writes (its checkpoint row is finalized in place) and an otherwise-identical
session that never checkpointed (a fresh finalized row is inserted) store
equal durations. -/
theorem finalize_duration_from_accumulated_time
    (db1 db2 : Database) (tr1 tr2 : ZoneTracker) (now1 now2 : ℚ)
    (linked : Option Nat) (cid : Nat)
    (h1 : tr1.checkpoint_db_id = some cid) (hc : cid ≠ 0)
    (hfind : (db1.sessions.find? (fun r => r.id == cid)).isSome)
    (h2 : tr2.checkpoint_db_id = none)
    (hs : tr2.session_start.isSome) (hd : 0 < tr2.accumulated_time)
    (heq : tr1.accumulated_time = tr2.accumulated_time) :
    sessionDurationOf
        (completeSession db1 tr1 now1 ZoneType.employee linked true).2.1 cid =
      some tr1.accumulated_time ∧
    ((completeSession db2 tr2 now2 ZoneType.employee linked true).2.1.sessions.getLast?).map
        (fun r => r.duration_seconds) = some tr2.accumulated_time ∧
    sessionDurationOf
        (completeSession db1 tr1 now1 ZoneType.employee linked true).2.1 cid =
      ((completeSession db2 tr2 now2 ZoneType.employee linked true).2.1.sessions.getLast?).map
        (fun r => r.duration_seconds) := by
  have ht : truthyNat (some cid) = true := by simp [truthyNat, hc]
  have part1 : sessionDurationOf
      (completeSession db1 tr1 now1 ZoneType.employee linked true).2.1 cid =
      some tr1.accumulated_time := by
    simp only [sessionDurationOf, completeSession, h1, ht, Bool.true_or, if_true,
      Option.getD_some, Database.finalizeSessionCheckpoint]
    rw [find?_updateFirstSession]
    · obtain ⟨r, hr⟩ := Option.isSome_iff_exists.mp hfind
      simp [hr]
    · intro r; rfl
  have part2 : ((completeSession db2 tr2 now2 ZoneType.employee linked
      true).2.1.sessions.getLast?).map (fun r => r.duration_seconds) =
      some tr2.accumulated_time := by
    simp [completeSession, truthyNat, h2, hs, hd, Database.saveSession]
  exact ⟨part1, part2, by rw [part1, part2, heq]⟩

/-- Witness for C3: a checkpointed session (row id 5) and a never-checkpointed
session, both with 7 accumulated seconds, finalize with duration 7. -/
theorem finalize_duration_from_accumulated_time_witness :
    sessionDurationOf
        (completeSession
          ⟨[], [], [⟨5, some 3, some 2, some 10, some 20, 0, 0, 1⟩], [], 6, 1⟩
          ⟨3, ZoneState.CHECKING_EXIT, none, none, none, 7, some 10, some 5, none⟩
          100 ZoneType.employee none true).2.1 5 = some 7 ∧
    ((completeSession ⟨[], [], [], [], 1, 1⟩
          ⟨3, ZoneState.CHECKING_EXIT, none, none, none, 7, some 1, none, none⟩
          50 ZoneType.employee none true).2.1.sessions.getLast?).map
        (fun r => r.duration_seconds) = some 7 := by
  have h := finalize_duration_from_accumulated_time
    ⟨[], [], [⟨5, some 3, some 2, some 10, some 20, 0, 0, 1⟩], [], 6, 1⟩
    ⟨[], [], [], [], 1, 1⟩
    ⟨3, ZoneState.CHECKING_EXIT, none, none, none, 7, some 10, some 5, none⟩
    ⟨3, ZoneState.CHECKING_EXIT, none, none, none, 7, some 1, none, none⟩
    100 50 none 5 rfl (by decide) (by rfl) rfl rfl (by norm_num) rfl
  exact ⟨h.1, h.2.1⟩

/-- Helper: a row of the updated list is either an untouched original row or
the image under the update of an original row. -/
theorem mem_updateFirstVisit (vid : Nat) (f : ClientVisitRec → ClientVisitRec)
    (l : List ClientVisitRec) (r' : ClientVisitRec)
    (h : r' ∈ updateFirstVisit vid f l) : r' ∈ l ∨ ∃ r ∈ l, r' = f r := by
  induction l with
  | nil => simp [updateFirstVisit] at h
  | cons r rs ih =>
    simp only [updateFirstVisit] at h
    by_cases hid : (r.id == vid) = true
    · rw [if_pos hid] at h
      rcases List.mem_cons.mp h with h1 | h1
      · exact Or.inr ⟨r, List.mem_cons_self r rs, h1⟩
      · exact Or.inl (List.mem_cons_of_mem r h1)
    · rw [if_neg hid] at h
      rcases List.mem_cons.mp h with h1 | h1
      · exact Or.inl (h1 ▸ List.mem_cons_self r rs)
      · rcases ih h1 with h2 | ⟨rr, hrr, he⟩
        · exact Or.inl (List.mem_cons_of_mem r h2)
        · exact Or.inr ⟨rr, List.mem_cons_of_mem r hrr, he⟩

/-- C9: a client-zone session completing on a zone whose linked employee
reference cannot be resolved (including `linked_employee_id = None`) persists
nothing — the store is unchanged and exactly one warning is logged before the
completion callback — and no client visit row is ever written with a null
credited employee, by `_complete_session` or by the checkpoint writer. -/
theorem client_visit_unresolvable_link_discarded
    (db : Database) (tr : ZoneTracker) (now : ℚ) (linked : Option Nat)
    (hres : linkResolvable db linked = false)
    (hguard : (truthyNat tr.checkpoint_db_id ||
      (tr.session_start.isSome && decide (0 < tr.accumulated_time))) = true) :
    (completeSession db tr now ZoneType.client linked true).2.1 = db ∧
    (completeSession db tr now ZoneType.client linked true).2.2 =
      [EngineEvent.warnNoLink tr.zone_id,
       EngineEvent.sessionComplete tr.zone_id tr.accumulated_time] ∧
    (∀ dbx trx nowx linkedx dbOkx,
      ∀ r' ∈ (completeSession dbx trx nowx ZoneType.client linkedx dbOkx).2.1.client_visits,
        truthyNat r'.employee_id = true ∨
          ∃ r ∈ dbx.client_visits, r'.employee_id = r.employee_id) ∧
    (∀ dbx trx nowx linkedx dbOkx,
      ∀ r' ∈ (saveOrUpdateCheckpoint dbx trx nowx ZoneType.client linkedx dbOkx).2.client_visits,
        truthyNat r'.employee_id = true ∨
          ∃ r ∈ dbx.client_visits, r'.employee_id = r.employee_id) := by
  simp only [linkResolvable] at hres
  refine ⟨?_, ?_, ?_, ?_⟩
  · simp only [completeSession, hguard, if_true, hres]
    rfl
  · simp only [completeSession, hguard, if_true, hres]
    rfl
  · intro dbx trx nowx linkedx dbOkx r' hr'
    simp only [completeSession] at hr'
    by_cases hg : (truthyNat trx.checkpoint_db_id ||
        (trx.session_start.isSome && decide (0 < trx.accumulated_time))) = true
    · rw [if_pos hg] at hr'
      by_cases hre : truthyNat (if truthyNat linkedx = true then
          Option.map (fun e => e.id) (dbx.getEmployeeByPlace (linkedx.getD 0))
        else none) = true
      · rw [if_pos hre] at hr'
        cases dbOkx with
        | false =>
          simp only [Bool.false_eq_true, if_false] at hr'
          exact Or.inr ⟨r', hr', rfl⟩
        | true =>
          simp only [if_true] at hr'
          by_cases hck : truthyNat trx.checkpoint_db_id = true
          · rw [if_pos hck] at hr'
            simp only [Database.finalizeClientVisitCheckpoint] at hr'
            rcases mem_updateFirstVisit _ _ _ _ hr' with h1 | ⟨r, hrm, he⟩
            · exact Or.inr ⟨r', h1, rfl⟩
            · exact Or.inr ⟨r, hrm, by rw [he]⟩
          · rw [if_neg hck] at hr'
            simp only [Database.saveClientVisit] at hr'
            rcases List.mem_append.mp hr' with h1 | h1
            · exact Or.inr ⟨r', h1, rfl⟩
            · left
              rcases List.mem_singleton.mp h1 with rfl
              revert hre
              cases hli : (if truthyNat linkedx = true then
                  Option.map (fun e => e.id) (dbx.getEmployeeByPlace (linkedx.getD 0))
                else none) with
              | none => simp [truthyNat]
              | some n => simp [truthyNat]
      · rw [if_neg hre] at hr'
        exact Or.inr ⟨r', hr', rfl⟩
    · rw [if_neg hg] at hr'
      exact Or.inr ⟨r', hr', rfl⟩
  · intro dbx trx nowx linkedx dbOkx r' hr'
    simp only [saveOrUpdateCheckpoint] at hr'
    by_cases hss : trx.session_start.isNone = true
    · rw [if_pos hss] at hr'
      exact Or.inr ⟨r', hr', rfl⟩
    · rw [if_neg hss] at hr'
      by_cases hl : truthyNat linkedx = true
      · simp only [hl, Bool.not_true, Bool.false_eq_true, if_false] at hr'
        by_cases hre : truthyNat (Option.map (fun e => e.id)
            (dbx.getEmployeeByPlace (linkedx.getD 0))) = true
        · simp only [hre, Bool.not_true, Bool.false_eq_true, if_false] at hr'
          cases dbOkx with
          | false => exact Or.inr ⟨r', hr', rfl⟩
          | true =>
            simp only [Bool.not_true, Bool.false_eq_true, if_false] at hr'
            cases hck : trx.checkpoint_db_id with
            | none =>
              rw [hck] at hr'
              simp only [Database.saveClientVisitCheckpoint] at hr'
              rcases List.mem_append.mp hr' with h1 | h1
              · exact Or.inr ⟨r', h1, rfl⟩
              · left
                rcases List.mem_singleton.mp h1 with rfl
                revert hre
                cases hli : Option.map (fun e => e.id)
                    (dbx.getEmployeeByPlace (linkedx.getD 0)) with
                | none => simp [truthyNat]
                | some n => simp [truthyNat]
            | some cid =>
              rw [hck] at hr'
              simp only [Database.updateClientVisitCheckpoint] at hr'
              rcases mem_updateFirstVisit _ _ _ _ hr' with h1 | ⟨r, hrm, he⟩
              · exact Or.inr ⟨r', h1, rfl⟩
              · exact Or.inr ⟨r, hrm, by rw [he]⟩
        · simp only [hre] at hr'
          simp at hr'
          exact Or.inr ⟨r', hr', rfl⟩
      · simp only [hl] at hr'
        simp at hr'
        exact Or.inr ⟨r', hr', rfl⟩

/-- Witness for C9: a client zone with no linked employee completing a 90
second visit persists nothing and logs exactly one warning. -/
theorem client_visit_unresolvable_link_discarded_witness :
    (completeSession ⟨[], [], [], [], 1, 1⟩
        ⟨4, ZoneState.CHECKING_EXIT, none, none, none, 90, some 1, none, none⟩
        200 ZoneType.client none true).2.1 = ⟨[], [], [], [], 1, 1⟩ ∧
    (completeSession ⟨[], [], [], [], 1, 1⟩
        ⟨4, ZoneState.CHECKING_EXIT, none, none, none, 90, some 1, none, none⟩
        200 ZoneType.client none true).2.2 =
      [EngineEvent.warnNoLink 4, EngineEvent.sessionComplete 4 90] := by
  have h := client_visit_unresolvable_link_discarded ⟨[], [], [], [], 1, 1⟩
    ⟨4, ZoneState.CHECKING_EXIT, none, none, none, 90, some 1, none, none⟩
    200 none rfl (by norm_num [truthyNat])
  exact ⟨h.1, h.2.1⟩

/-- C2: once a session is in its exit grace window, a present sample resumes
the timer with the accumulated time intact and nothing persisted; an absent
sample before `exit_threshold` changes nothing; an absent sample at or past
`exit_threshold` finalizes exactly one persisted record for the session —
a fresh finalized row when the session never checkpointed, or the checkpoint
row finalized in place — and returns the tracker to VACANT. The finalize
conjuncts cover both tracker kinds: employee zones write one Session row and
client zones whose link resolves write one ClientVisit row. -/
theorem grace_period_correctness
    (cfg : EngineConfig) (db : Database) (tr : ZoneTracker) (t est : ℚ)
    (zone_type : ZoneType) (linked : Option Nat) (dbOk : Bool)
    (htr : tr.state = ZoneState.CHECKING_EXIT)
    (hex : tr.exit_start_time = some est) :
    (update cfg db tr t true zone_type linked dbOk =
      ({ tr with state := ZoneState.OCCUPIED, timer_start_time := some t,
                 exit_start_time := none }, db, [])) ∧
    (t - est < cfg.exitThresh zone_type →
      update cfg db tr t false zone_type linked dbOk = (tr, db, [])) ∧
    (cfg.EXIT_THRESHOLD ≤ t - est → tr.checkpoint_db_id = none →
      tr.session_start.isSome → 0 < tr.accumulated_time →
      (update cfg db tr t false ZoneType.employee linked true).2.1.sessions =
        db.sessions ++ [⟨db.next_session_id, some tr.zone_id,
          (db.getEmployeeByPlace tr.zone_id).map (fun e => e.id),
          tr.session_start, some t, tr.accumulated_time, 0, 0⟩] ∧
      (update cfg db tr t false ZoneType.employee linked true).2.1.client_visits =
        db.client_visits ∧
      (update cfg db tr t false ZoneType.employee linked true).2.2 =
        [EngineEvent.sessionComplete tr.zone_id tr.accumulated_time] ∧
      (update cfg db tr t false ZoneType.employee linked true).1.state =
        ZoneState.VACANT) ∧
    (∀ cid, cfg.EXIT_THRESHOLD ≤ t - est → tr.checkpoint_db_id = some cid →
      cid ≠ 0 →
      (update cfg db tr t false ZoneType.employee linked true).2.1 =
        db.finalizeSessionCheckpoint cid t tr.accumulated_time ∧
      (update cfg db tr t false ZoneType.employee linked true).1.state =
        ZoneState.VACANT) ∧
    (∀ emp, cfg.CLIENT_EXIT_THRESHOLD ≤ t - est → tr.checkpoint_db_id = none →
      tr.session_start.isSome → 0 < tr.accumulated_time →
      truthyNat linked = true →
      (db.getEmployeeByPlace (linked.getD 0)).map (fun e => e.id) = some emp →
      emp ≠ 0 →
      (update cfg db tr t false ZoneType.client linked true).2.1.client_visits =
        db.client_visits ++ [⟨db.next_visit_id, some tr.zone_id, some emp, 0,
          tr.session_start, some t, tr.accumulated_time, 0, 0⟩] ∧
      (update cfg db tr t false ZoneType.client linked true).2.1.sessions =
        db.sessions ∧
      (update cfg db tr t false ZoneType.client linked true).2.2 =
        [EngineEvent.sessionComplete tr.zone_id tr.accumulated_time] ∧
      (update cfg db tr t false ZoneType.client linked true).1.state =
        ZoneState.VACANT) ∧
    (∀ cid emp, cfg.CLIENT_EXIT_THRESHOLD ≤ t - est →
      tr.checkpoint_db_id = some cid → cid ≠ 0 →
      truthyNat linked = true →
      (db.getEmployeeByPlace (linked.getD 0)).map (fun e => e.id) = some emp →
      emp ≠ 0 →
      (update cfg db tr t false ZoneType.client linked true).2.1 =
        db.finalizeClientVisitCheckpoint cid t tr.accumulated_time ∧
      (update cfg db tr t false ZoneType.client linked true).1.state =
        ZoneState.VACANT) := by
  refine ⟨?_, ?_, ?_, ?_, ?_, ?_⟩
  · simp only [update, htr]
    simp
  · intro hlt
    simp only [update, htr, hex]
    simp [not_le.mpr hlt]
  · intro hge hck hss hacc
    have hrun : update cfg db tr t false ZoneType.employee linked true =
        completeSession db tr t ZoneType.employee linked true := by
      simp only [update, htr, hex, EngineConfig.exitThresh]
      simp [hge]
    rw [hrun]
    refine ⟨?_, ?_, ?_, rfl⟩ <;>
      simp [completeSession, truthyNat, hck, hss, hacc, Database.saveSession]
  · intro cid hge hck hcid
    have hrun : update cfg db tr t false ZoneType.employee linked true =
        completeSession db tr t ZoneType.employee linked true := by
      simp only [update, htr, hex, EngineConfig.exitThresh]
      simp [hge]
    rw [hrun]
    have ht : truthyNat (some cid) = true := by simp [truthyNat, hcid]
    refine ⟨?_, rfl⟩
    simp [completeSession, hck, ht]
  · intro emp hge hck hss hacc hlink hemp hemp0
    have hrun : update cfg db tr t false ZoneType.client linked true =
        completeSession db tr t ZoneType.client linked true := by
      simp only [update, htr, hex, EngineConfig.exitThresh]
      simp [hge]
    rw [hrun]
    have hnone : truthyNat (none : Option Nat) = false := rfl
    have htm : truthyNat (some emp) = true := by simp [truthyNat, hemp0]
    refine ⟨?_, ?_, ?_, rfl⟩ <;>
      simp [completeSession, hnone, hck, hss, hacc, hlink, hemp, htm,
        Database.saveClientVisit]
  · intro cid emp hge hck hcid hlink hemp hemp0
    have hrun : update cfg db tr t false ZoneType.client linked true =
        completeSession db tr t ZoneType.client linked true := by
      simp only [update, htr, hex, EngineConfig.exitThresh]
      simp [hge]
    rw [hrun]
    have ht : truthyNat (some cid) = true := by simp [truthyNat, hcid]
    have htm : truthyNat (some emp) = true := by simp [truthyNat, hemp0]
    refine ⟨?_, rfl⟩
    simp [completeSession, hck, ht, hlink, hemp, htm]

/-- Witness for C2: with a 10-second exit threshold, an absence of 5 seconds
leaves the paused session untouched, while an absence of 11 seconds finalizes
exactly one session row carrying the accumulated 6 seconds; on a client zone
whose link resolves, the same absence finalizes exactly one client visit row
credited to the linked zone's employee. -/
theorem grace_period_correctness_witness :
    (update ⟨3, 10, 60, 10, 300⟩ ⟨[], [], [], [], 1, 1⟩
        ⟨2, ZoneState.CHECKING_EXIT, none, some 20, none, 6, some 1, none, some 4⟩
        25 false ZoneType.employee none true) =
      (⟨2, ZoneState.CHECKING_EXIT, none, some 20, none, 6, some 1, none, some 4⟩,
        ⟨[], [], [], [], 1, 1⟩, []) ∧
    (update ⟨3, 10, 60, 10, 300⟩ ⟨[], [], [], [], 1, 1⟩
        ⟨2, ZoneState.CHECKING_EXIT, none, some 20, none, 6, some 1, none, some 4⟩
        31 false ZoneType.employee none true).2.1.sessions =
      [⟨1, some 2, none, some 1, some 31, 6, 0, 0⟩] ∧
    (update ⟨3, 10, 60, 10, 300⟩
        ⟨[⟨8, some 9, none, ZoneType.employee⟩], [⟨9, 1⟩], [], [], 1, 1⟩
        ⟨7, ZoneState.CHECKING_EXIT, none, some 20, none, 6, some 1, none, some 4⟩
        31 false ZoneType.client (some 8) true).2.1.client_visits =
      [⟨1, some 7, some 9, 0, some 1, some 31, 6, 0, 0⟩] := by
  have h1 := grace_period_correctness ⟨3, 10, 60, 10, 300⟩ ⟨[], [], [], [], 1, 1⟩
    ⟨2, ZoneState.CHECKING_EXIT, none, some 20, none, 6, some 1, none, some 4⟩
    25 20 ZoneType.employee none true rfl rfl
  have h2 := grace_period_correctness ⟨3, 10, 60, 10, 300⟩ ⟨[], [], [], [], 1, 1⟩
    ⟨2, ZoneState.CHECKING_EXIT, none, some 20, none, 6, some 1, none, some 4⟩
    31 20 ZoneType.employee none true rfl rfl
  have hc := grace_period_correctness ⟨3, 10, 60, 10, 300⟩
    ⟨[⟨8, some 9, none, ZoneType.employee⟩], [⟨9, 1⟩], [], [], 1, 1⟩
    ⟨7, ZoneState.CHECKING_EXIT, none, some 20, none, 6, some 1, none, some 4⟩
    31 20 ZoneType.client (some 8) true rfl rfl
  refine ⟨h1.2.1 (by norm_num [EngineConfig.exitThresh]), ?_, ?_⟩
  · have h3 := (h2.2.2.1 (by norm_num) rfl rfl (by norm_num)).1
    rw [h3]
    rfl
  · have h4 := (hc.2.2.2.2.1 9 (by norm_num) rfl rfl (by norm_num) rfl rfl
      (by decide)).1
    rw [h4]
    rfl

/-- Counterexample to C4: an occupied zone with 450 seconds of current elapsed
time (50 accumulated + 400 on the running timer) reaches its first checkpoint,
and the inserted `is_checkpoint=1` row stores `duration_seconds = 0`, not the
current elapsed duration. -/
theorem first_checkpoint_duration_counterexample :
    ((update ⟨3, 30, 60, 10, 300⟩ ⟨[], [], [], [], 1, 1⟩
        ⟨2, ZoneState.OCCUPIED, some 100, none, some 100, 50, some 100, none, some 100⟩
        500 true ZoneType.employee none true).2.1.sessions.getD 0 dummySession) =
      ⟨1, some 2, none, some 100, some 500, 0, 0, 1⟩ ∧
    (50 : ℚ) + (500 - 100) = 450 ∧ (0 : ℚ) ≠ 450 := by
  refine ⟨?_, by norm_num, by norm_num⟩
  norm_num [update, saveOrUpdateCheckpoint, truthyTime, truthyNat,
    Database.saveSessionCheckpoint, Database.getEmployeeByPlace]

/-- C4 (amended): while OCCUPIED, whenever `now − last_checkpoint_time` is at
least the checkpoint interval the engine checkpoints; the first checkpoint for
a session inserts a new `is_checkpoint=1` row whose stored duration is 0 (the
current elapsed duration is not persisted until the next checkpoint tick),
and every subsequent checkpoint updates that same row's end time and duration
in place with the session's current elapsed duration; below the interval
nothing is persisted. -/
theorem checkpoint_insert_then_update_in_place
    (cfg : EngineConfig) (db : Database) (tr : ZoneTracker) (now lc : ℚ)
    (zone_type : ZoneType) (linked : Option Nat) (dbOk : Bool)
    (htr : tr.state = ZoneState.OCCUPIED)
    (hlc : tr.last_checkpoint_time = some lc) (hlc0 : lc ≠ 0) :
    (now - lc < cfg.CHECKPOINT_INTERVAL →
      update cfg db tr now true zone_type linked dbOk = (tr, db, [])) ∧
    (cfg.CHECKPOINT_INTERVAL ≤ now - lc → tr.checkpoint_db_id = none →
      ∀ s, tr.session_start = some s →
      update cfg db tr now true ZoneType.employee linked true =
        ({ tr with checkpoint_db_id := some db.next_session_id,
                   last_checkpoint_time := some now },
         (db.saveSessionCheckpoint tr.zone_id
            ((db.getEmployeeByPlace tr.zone_id).map (fun e => e.id))
            (some s) now).1, []) ∧
      ((db.saveSessionCheckpoint tr.zone_id
            ((db.getEmployeeByPlace tr.zone_id).map (fun e => e.id))
            (some s) now).1.sessions.getLast?).map
          (fun r => (r.duration_seconds, r.is_checkpoint)) = some (0, 1)) ∧
    (cfg.CHECKPOINT_INTERVAL ≤ now - lc → ∀ cid, tr.checkpoint_db_id = some cid →
      ∀ s, tr.session_start = some s →
      update cfg db tr now true ZoneType.employee linked true =
        ({ tr with last_checkpoint_time := some now },
         db.updateSessionCheckpoint cid now (tr.accumulated_time +
           (if truthyTime tr.timer_start_time then now - tr.timer_start_time.getD 0
            else 0)), []) ∧
      ((db.sessions.find? (fun r => r.id == cid)).isSome →
        sessionDurationOf
          (db.updateSessionCheckpoint cid now (tr.accumulated_time +
            (if truthyTime tr.timer_start_time then now - tr.timer_start_time.getD 0
             else 0))) cid =
        some (tr.accumulated_time +
          (if truthyTime tr.timer_start_time then now - tr.timer_start_time.getD 0
           else 0)))) := by
  have h1 : truthyTime (some lc) = true := by simp [truthyTime, hlc0]
  refine ⟨?_, ?_, ?_⟩
  · intro hlt
    simp only [update, htr, hlc, h1, Bool.true_and]
    simp [not_le.mpr hlt]
  · intro hdue hck s hs
    have h2 : decide (cfg.CHECKPOINT_INTERVAL ≤ now - lc) = true := decide_eq_true hdue
    constructor
    · simp [update, htr, hlc, h1, h2, saveOrUpdateCheckpoint, hs, hck,
        Database.saveSessionCheckpoint]
    · simp [Database.saveSessionCheckpoint]
  · intro hdue cid hck s hs
    have h2 : decide (cfg.CHECKPOINT_INTERVAL ≤ now - lc) = true := decide_eq_true hdue
    constructor
    · simp [update, htr, hlc, h1, h2, saveOrUpdateCheckpoint, hs, hck]
    · intro hfind
      simp only [sessionDurationOf, Database.updateSessionCheckpoint]
      rw [find?_updateFirstSession]
      · obtain ⟨r, hr⟩ := Option.isSome_iff_exists.mp hfind
        simp [hr]
      · intro r; rfl

/-- Witness for the amended C4: 100 seconds into a 300-second checkpoint
interval nothing is persisted, and a later checkpoint tick updates the
existing checkpoint row in place to the current elapsed duration 750. -/
theorem checkpoint_insert_then_update_in_place_witness :
    (update ⟨3, 30, 60, 10, 300⟩ ⟨[], [], [], [], 1, 1⟩
        ⟨2, ZoneState.OCCUPIED, some 100, none, some 100, 50, some 100, none, some 100⟩
        200 true ZoneType.employee none true) =
      (⟨2, ZoneState.OCCUPIED, some 100, none, some 100, 50, some 100, none, some 100⟩,
       ⟨[], [], [], [], 1, 1⟩, []) ∧
    sessionDurationOf
        ((⟨[], [], [⟨1, some 2, none, some 100, some 400, 0, 0, 1⟩], [], 2, 1⟩ :
            Database).updateSessionCheckpoint 1 800 750) 1 = some 750 := by
  have hA := checkpoint_insert_then_update_in_place ⟨3, 30, 60, 10, 300⟩
    ⟨[], [], [], [], 1, 1⟩
    ⟨2, ZoneState.OCCUPIED, some 100, none, some 100, 50, some 100, none, some 100⟩
    200 100 ZoneType.employee none true rfl rfl (by norm_num)
  have hB := checkpoint_insert_then_update_in_place ⟨3, 30, 60, 10, 300⟩
    ⟨[], [], [⟨1, some 2, none, some 100, some 400, 0, 0, 1⟩], [], 2, 1⟩
    ⟨2, ZoneState.OCCUPIED, some 100, none, some 100, 50, some 100, some 1, some 100⟩
    800 100 ZoneType.employee none true rfl rfl (by norm_num)
  refine ⟨hA.1 (by norm_num), ?_⟩
  have h3 := (hB.2.2 (by norm_num) 1 rfl 100 rfl).2 (by rfl)
  have hD : ((⟨2, ZoneState.OCCUPIED, some 100, none, some 100, 50, some 100,
      some 1, some 100⟩ : ZoneTracker).accumulated_time +
      (if truthyTime (⟨2, ZoneState.OCCUPIED, some 100, none, some 100, 50,
        some 100, some 1, some 100⟩ : ZoneTracker).timer_start_time then
        800 - ((⟨2, ZoneState.OCCUPIED, some 100, none, some 100, 50, some 100,
          some 1, some 100⟩ : ZoneTracker).timer_start_time).getD 0
      else 0)) = 750 := by
    norm_num [truthyTime]
  rw [hD] at h3
  exact h3

/-- Counterexample to C5: at shutdown, a client zone (zone 7, resolvable link
to employee zone 8 and on to employee 9) with a 90-second active session is
persisted as an employee Session row with no credited employee — zero
ClientVisit rows are written, although the link was resolvable. -/
theorem shutdown_client_zone_counterexample :
    (shutdown ⟨[⟨7, none, some 8, ZoneType.client⟩,
        ⟨8, some 9, none, ZoneType.employee⟩], [⟨9, 1⟩], [], [], 1, 1⟩
      [⟨7, ZoneState.OCCUPIED, some 10, none, some 10, 0, some 10, none, some 10⟩]
      100 true).2.client_visits = [] ∧
    (shutdown ⟨[⟨7, none, some 8, ZoneType.client⟩,
        ⟨8, some 9, none, ZoneType.employee⟩], [⟨9, 1⟩], [], [], 1, 1⟩
      [⟨7, ZoneState.OCCUPIED, some 10, none, some 10, 0, some 10, none, some 10⟩]
      100 true).2.sessions =
      [⟨1, some 7, none, some 10, some 100, 90, 0, 0⟩] ∧
    linkResolvable ⟨[⟨7, none, some 8, ZoneType.client⟩,
        ⟨8, some 9, none, ZoneType.employee⟩], [⟨9, 1⟩], [], [], 1, 1⟩
      (some 8) = true := by
  refine ⟨?_, ?_, by rfl⟩ <;>
    norm_num [shutdown, forceSaveSession, flushTimer, truthyTime, truthyNat,
      Database.saveSession, Database.getEmployeeByPlace]

/-- C5 (amended): on shutdown every OCCUPIED or CHECKING_EXIT tracker is force
saved: the running timer is flushed into `accumulated_time` first; nothing is
persisted when `session_start` is unset or the flushed duration is at most the
1-second noise floor; otherwise the session is persisted as an employee
Session row (checkpoint finalized in place, else a fresh insert) with the
employee resolved from the zone's own assignment — a ClientVisit row is never
written, whatever the zone's type. -/
theorem shutdown_saves_sessions_only
    (db : Database) (tr : ZoneTracker) (now : ℚ) (dbOk : Bool) :
    (forceSaveSession db tr now dbOk).1 = flushTimer tr now ∧
    (forceSaveSession db tr now dbOk).2.client_visits = db.client_visits ∧
    ((flushTimer tr now).session_start.isSome = false ∨
        (flushTimer tr now).accumulated_time ≤ 1 →
      (forceSaveSession db tr now dbOk).2 = db) ∧
    (∀ s, (flushTimer tr now).session_start = some s →
      1 < (flushTimer tr now).accumulated_time →
      (flushTimer tr now).checkpoint_db_id = none →
      (forceSaveSession db tr now true).2.sessions =
        db.sessions ++ [⟨db.next_session_id, some tr.zone_id,
          (db.getEmployeeByPlace tr.zone_id).map (fun e => e.id),
          some s, some now, (flushTimer tr now).accumulated_time, 0, 0⟩]) ∧
    (∀ s cid, (flushTimer tr now).session_start = some s →
      1 < (flushTimer tr now).accumulated_time →
      (flushTimer tr now).checkpoint_db_id = some cid → cid ≠ 0 →
      (forceSaveSession db tr now true).2 =
        db.finalizeSessionCheckpoint cid now
          (flushTimer tr now).accumulated_time) ∧
    (shutdown db [] now dbOk = ([], db)) ∧
    (∀ trs, tr.state = ZoneState.OCCUPIED ∨ tr.state = ZoneState.CHECKING_EXIT →
      shutdown db (tr :: trs) now dbOk =
        ((forceSaveSession db tr now dbOk).1 ::
          (shutdown (forceSaveSession db tr now dbOk).2 trs now dbOk).1,
         (shutdown (forceSaveSession db tr now dbOk).2 trs now dbOk).2)) ∧
    (∀ trs, tr.state ≠ ZoneState.OCCUPIED → tr.state ≠ ZoneState.CHECKING_EXIT →
      shutdown db (tr :: trs) now dbOk =
        (tr :: (shutdown db trs now dbOk).1, (shutdown db trs now dbOk).2)) := by
  have hEq : ∀ dbOkx, forceSaveSession db tr now dbOkx =
      (flushTimer tr now,
        if (flushTimer tr now).session_start.isSome &&
            decide (1 < (flushTimer tr now).accumulated_time) then
          if dbOkx then
            if truthyNat (flushTimer tr now).checkpoint_db_id then
              db.finalizeSessionCheckpoint
                ((flushTimer tr now).checkpoint_db_id.getD 0) now
                (flushTimer tr now).accumulated_time
            else
              (db.saveSession (flushTimer tr now).zone_id
                (flushTimer tr now).session_start (some now)
                (flushTimer tr now).accumulated_time
                ((db.getEmployeeByPlace
                  (flushTimer tr now).zone_id).map (fun e => e.id))).1
          else db
        else db) := by
    intro dbOkx
    simp only [forceSaveSession]
    split <;> rfl
  have hz : (flushTimer tr now).zone_id = tr.zone_id := by
    simp only [flushTimer]
    split <;> rfl
  refine ⟨by rw [hEq], ?_, ?_, ?_, ?_, rfl, ?_, ?_⟩
  · rw [hEq]
    split
    · split
      · split <;> rfl
      · rfl
    · rfl
  · intro h
    have hc : ((flushTimer tr now).session_start.isSome &&
        decide (1 < (flushTimer tr now).accumulated_time)) = false := by
      rcases h with h | h
      · simp [h]
      · have : decide (1 < (flushTimer tr now).accumulated_time) = false :=
          decide_eq_false (not_lt.mpr h)
        simp [this]
    rw [hEq, hc]
    simp
  · intro s hs hacc hck
    have hc : ((flushTimer tr now).session_start.isSome &&
        decide (1 < (flushTimer tr now).accumulated_time)) = true := by
      simp [hs, hacc]
    have hckf : truthyNat (flushTimer tr now).checkpoint_db_id = false := by
      simp [truthyNat, hck]
    rw [hEq, hc, hckf]
    simp only [if_true, Bool.false_eq_true, if_false, Database.saveSession]
    rw [hz, hs]
  · intro s cid hs hacc hck hcid
    have hc : ((flushTimer tr now).session_start.isSome &&
        decide (1 < (flushTimer tr now).accumulated_time)) = true := by
      simp [hs, hacc]
    have hckt : truthyNat (flushTimer tr now).checkpoint_db_id = true := by
      simp [truthyNat, hck, hcid]
    rw [hEq, hc, hckt]
    simp [hck]
  · intro trs h
    have hc : (tr.state == ZoneState.OCCUPIED ||
        tr.state == ZoneState.CHECKING_EXIT) = true := by
      rcases h with h | h <;> simp [h]
    simp only [shutdown, hc, if_true]
  · intro trs h1 h2
    have hc : (tr.state == ZoneState.OCCUPIED ||
        tr.state == ZoneState.CHECKING_EXIT) = false := by
      simp [beq_eq_false_iff_ne, h1, h2]
    simp only [shutdown, hc, Bool.false_eq_true, if_false]

/-- Helper: `updateFirstSession` leaves each position unchanged or applies the
update to it. -/
theorem updateFirstSession_getD (sid : Nat) (f : SessionRec → SessionRec)
    (l : List SessionRec) (d : SessionRec) (i : Nat) :
    (updateFirstSession sid f l).getD i d = l.getD i d ∨
    (updateFirstSession sid f l).getD i d = f (l.getD i d) := by
  induction l generalizing i with
  | nil => exact Or.inl rfl
  | cons r rs ih =>
    simp only [updateFirstSession]
    by_cases h : (r.id == sid) = true
    · rw [if_pos h]
      cases i with
      | zero => exact Or.inr rfl
      | succ j => exact Or.inl rfl
    · rw [if_neg h]
      cases i with
      | zero => exact Or.inl rfl
      | succ j => exact ih j

/-- Helper: the client-visit analogue of `updateFirstSession_getD`. -/
theorem updateFirstVisit_getD (vid : Nat) (f : ClientVisitRec → ClientVisitRec)
    (l : List ClientVisitRec) (d : ClientVisitRec) (i : Nat) :
    (updateFirstVisit vid f l).getD i d = l.getD i d ∨
    (updateFirstVisit vid f l).getD i d = f (l.getD i d) := by
  induction l generalizing i with
  | nil => exact Or.inl rfl
  | cons r rs ih =>
    simp only [updateFirstVisit]
    by_cases h : (r.id == vid) = true
    · rw [if_pos h]
      cases i with
      | zero => exact Or.inr rfl
      | succ j => exact Or.inl rfl
    · rw [if_neg h]
      cases i with
      | zero => exact Or.inl rfl
      | succ j => exact ih j

/-- C6: the startup crash-recovery pass flips every row still marked
`is_checkpoint=1` (Sessions and ClientVisits) to `is_checkpoint=0`, leaving
`duration_seconds` and every other field unchanged, and leaves no checkpoint
row behind; the pass is idempotent, later checkpoint inserts always use a
fresh id, and the in-place update operations never raise the flag on an
existing row, so a recovered id never reappears as a checkpoint. -/
theorem crash_recovery_flips_checkpoints
    (db : Database) :
    db.finalizeStaleCheckpoints.sessions.length = db.sessions.length ∧
    db.finalizeStaleCheckpoints.client_visits.length = db.client_visits.length ∧
    (∀ i, db.finalizeStaleCheckpoints.sessions.getD i dummySession =
      (if (db.sessions.getD i dummySession).is_checkpoint == 1 then
        { db.sessions.getD i dummySession with is_checkpoint := 0 }
      else db.sessions.getD i dummySession)) ∧
    (∀ i, db.finalizeStaleCheckpoints.client_visits.getD i dummyVisit =
      (if (db.client_visits.getD i dummyVisit).is_checkpoint == 1 then
        { db.client_visits.getD i dummyVisit with is_checkpoint := 0 }
      else db.client_visits.getD i dummyVisit)) ∧
    (∀ r ∈ db.finalizeStaleCheckpoints.sessions, r.is_checkpoint ≠ 1) ∧
    (∀ r ∈ db.finalizeStaleCheckpoints.client_visits, r.is_checkpoint ≠ 1) ∧
    db.finalizeStaleCheckpoints.finalizeStaleCheckpoints =
      db.finalizeStaleCheckpoints ∧
    (∀ (dbx : Database) (p : Nat) (e : Option Nat) (s : Option ℚ) (n : ℚ),
      (∀ r ∈ dbx.sessions, r.id < dbx.next_session_id) →
      ∀ r ∈ dbx.sessions, r.id ≠ (dbx.saveSessionCheckpoint p e s n).2) ∧
    (∀ (dbx : Database) (p e t : Nat) (s : Option ℚ) (n : ℚ),
      (∀ r ∈ dbx.client_visits, r.id < dbx.next_visit_id) →
      ∀ r ∈ dbx.client_visits, r.id ≠ (dbx.saveClientVisitCheckpoint p e t s n).2) ∧
    (∀ (dbx : Database) (sid : Nat) (t d : ℚ) (i : Nat),
      ((dbx.updateSessionCheckpoint sid t d).sessions.getD i dummySession).is_checkpoint
        = (dbx.sessions.getD i dummySession).is_checkpoint) ∧
    (∀ (dbx : Database) (vid : Nat) (t d : ℚ) (i : Nat),
      ((dbx.updateClientVisitCheckpoint vid t d).client_visits.getD i dummyVisit).is_checkpoint
        = (dbx.client_visits.getD i dummyVisit).is_checkpoint) ∧
    (∀ (dbx : Database) (sid : Nat) (t d : ℚ) (i : Nat),
      ((dbx.finalizeSessionCheckpoint sid t d).sessions.getD i dummySession).is_checkpoint = 0 ∨
      ((dbx.finalizeSessionCheckpoint sid t d).sessions.getD i dummySession).is_checkpoint
        = (dbx.sessions.getD i dummySession).is_checkpoint) ∧
    (∀ (dbx : Database) (ids : List Nat) (i : Nat),
      ((dbx.markSessionsSynced ids).sessions.getD i dummySession).is_checkpoint
        = (dbx.sessions.getD i dummySession).is_checkpoint) := by
  refine ⟨?_, ?_, ?_, ?_, ?_, ?_, ?_, ?_, ?_, ?_, ?_, ?_, ?_⟩
  · simp [Database.finalizeStaleCheckpoints]
  · simp [Database.finalizeStaleCheckpoints]
  · intro i
    simp only [Database.finalizeStaleCheckpoints, List.getD_eq_getElem?_getD,
      List.getElem?_map]
    cases h : db.sessions[i]? with
    | none => simp [dummySession]
    | some r => simp
  · intro i
    simp only [Database.finalizeStaleCheckpoints, List.getD_eq_getElem?_getD,
      List.getElem?_map]
    cases h : db.client_visits[i]? with
    | none => simp [dummyVisit]
    | some r => simp
  · intro r hr
    simp only [Database.finalizeStaleCheckpoints, List.mem_map] at hr
    obtain ⟨a, _, ha⟩ := hr
    by_cases h : (a.is_checkpoint == 1) = true
    · rw [if_pos h] at ha
      subst ha
      simp
    · rw [if_neg h] at ha
      subst ha
      simpa using h
  · intro r hr
    simp only [Database.finalizeStaleCheckpoints, List.mem_map] at hr
    obtain ⟨a, _, ha⟩ := hr
    by_cases h : (a.is_checkpoint == 1) = true
    · rw [if_pos h] at ha
      subst ha
      simp
    · rw [if_neg h] at ha
      subst ha
      simpa using h
  · simp only [Database.finalizeStaleCheckpoints, List.map_map, Database.mk.injEq,
      true_and, and_true]
    constructor
    · apply List.map_congr_left
      intro a _
      by_cases h : (a.is_checkpoint == 1) = true
      · simp [Function.comp, h]
      · simp [Function.comp, h]
    · apply List.map_congr_left
      intro a _
      by_cases h : (a.is_checkpoint == 1) = true
      · simp [Function.comp, h]
      · simp [Function.comp, h]
  · intro dbx p e s n hinv r hr
    exact Nat.ne_of_lt (hinv r hr)
  · intro dbx p e t s n hinv r hr
    exact Nat.ne_of_lt (hinv r hr)
  · intro dbx sid t d i
    rcases updateFirstSession_getD sid _ dbx.sessions dummySession i with h | h
    · rw [show (dbx.updateSessionCheckpoint sid t d).sessions =
        updateFirstSession sid _ dbx.sessions from rfl, h]
    · rw [show (dbx.updateSessionCheckpoint sid t d).sessions =
        updateFirstSession sid _ dbx.sessions from rfl, h]
  · intro dbx vid t d i
    rcases updateFirstVisit_getD vid _ dbx.client_visits dummyVisit i with h | h
    · rw [show (dbx.updateClientVisitCheckpoint vid t d).client_visits =
        updateFirstVisit vid _ dbx.client_visits from rfl, h]
    · rw [show (dbx.updateClientVisitCheckpoint vid t d).client_visits =
        updateFirstVisit vid _ dbx.client_visits from rfl, h]
  · intro dbx sid t d i
    rcases updateFirstSession_getD sid _ dbx.sessions dummySession i with h | h
    · right
      rw [show (dbx.finalizeSessionCheckpoint sid t d).sessions =
        updateFirstSession sid _ dbx.sessions from rfl, h]
    · left
      rw [show (dbx.finalizeSessionCheckpoint sid t d).sessions =
        updateFirstSession sid _ dbx.sessions from rfl, h]
  · intro dbx ids i
    by_cases hemp : ids.isEmpty
    · simp [Database.markSessionsSynced, hemp]
    · simp only [Database.markSessionsSynced, hemp, Bool.false_eq_true, if_false,
        List.getD_eq_getElem?_getD, List.getElem?_map]
      cases h : dbx.sessions[i]? with
      | none => rfl
      | some r =>
        simp only [Option.getD_some, Option.map_some']
        split <;> rfl

/-- Counterexample to C8: jitter is added on top of the capped backoff term,
so with jitter draws 0,0,0,0,0,5,0 (all within `[0, JITTER_MAX]`) the sixth
consecutive failure stores interval 305 — above SYNC_INTERVAL_MAX = 300 — and
the seventh stores 300, a strictly smaller value: the stored retry-interval
sequence is neither capped at SYNC_INTERVAL_MAX nor non-decreasing. -/
theorem backoff_interval_not_capped_counterexample :
    (onSyncFailure (onSyncFailure (onSyncFailure (onSyncFailure (onSyncFailure
        (onSyncFailure BackoffState.init 0) 0) 0) 0) 0) 5).current_sync_interval
      = 305 ∧
    (onSyncFailure (onSyncFailure (onSyncFailure (onSyncFailure (onSyncFailure
        (onSyncFailure (onSyncFailure BackoffState.init 0) 0) 0) 0) 0) 5)
        0).current_sync_interval = 300 ∧
    SYNC_INTERVAL_MAX = 300 ∧ (300 : ℚ) < 305 ∧
    (0 : ℚ) ≤ 5 ∧ (5 : ℚ) ≤ JITTER_MAX := by
  norm_num [onSyncFailure, BackoffState.init, SYNC_INTERVAL_MAX,
    SYNC_INTERVAL_NORMAL, BACKOFF_MULTIPLIER, JITTER_MAX]

/-- C8 (amended): on each consecutive failure the jitter-free backoff term
grows as `min (base · 2^failures) SYNC_INTERVAL_MAX` — non-decreasing in the
failure count and capped at SYNC_INTERVAL_MAX — and the stored retry interval
is that term plus the jitter draw, so it lies between the capped term and
`SYNC_INTERVAL_MAX + JITTER_MAX` (it may exceed the cap by up to the jitter
and may decrease by at most the jitter difference); a single success resets
the state to the base interval immediately. -/
theorem backoff_monotone_capped_before_jitter
    (st : BackoffState) (j : ℚ) (hj0 : 0 ≤ j) (hj1 : j ≤ JITTER_MAX) :
    (onSyncFailure st j).consecutive_failures = st.consecutive_failures + 1 ∧
    (onSyncFailure st j).is_healthy = false ∧
    (onSyncFailure st j).current_sync_interval =
      min (SYNC_INTERVAL_NORMAL *
        BACKOFF_MULTIPLIER ^ (st.consecutive_failures + 1)) SYNC_INTERVAL_MAX + j ∧
    (∀ m n : Nat, m ≤ n →
      min (SYNC_INTERVAL_NORMAL * BACKOFF_MULTIPLIER ^ m) SYNC_INTERVAL_MAX ≤
      min (SYNC_INTERVAL_NORMAL * BACKOFF_MULTIPLIER ^ n) SYNC_INTERVAL_MAX) ∧
    min (SYNC_INTERVAL_NORMAL *
      BACKOFF_MULTIPLIER ^ (st.consecutive_failures + 1)) SYNC_INTERVAL_MAX ≤
      (onSyncFailure st j).current_sync_interval ∧
    (onSyncFailure st j).current_sync_interval ≤
      SYNC_INTERVAL_MAX + JITTER_MAX ∧
    (∀ stx : BackoffState, onSyncSuccess stx = BackoffState.init) := by
  refine ⟨rfl, rfl, rfl, ?_, ?_, ?_, fun _ => rfl⟩
  · intro m n hmn
    apply min_le_min _ le_rfl
    apply mul_le_mul_of_nonneg_left _ (by norm_num [SYNC_INTERVAL_NORMAL])
    apply pow_le_pow_right₀ _ hmn
    norm_num [BACKOFF_MULTIPLIER]
  · exact le_add_of_nonneg_right hj0
  · exact add_le_add (min_le_right _ _) hj1

/-- Helper: checkpointing never changes the tracker's state (it only records
the checkpoint row id). -/
theorem saveOrUpdateCheckpoint_state (db : Database) (tr : ZoneTracker)
    (now : ℚ) (zt : ZoneType) (linked : Option Nat) (dbOk : Bool) :
    (saveOrUpdateCheckpoint db tr now zt linked dbOk).1.state = tr.state := by
  simp only [saveOrUpdateCheckpoint]
  split
  · rfl
  · cases zt <;> (repeat' split) <;> rfl

/-- Helper: processing a concatenation of sample lists is processing them in
sequence. -/
theorem runUpdates_append (cfg : EngineConfig) (zt : ZoneType)
    (linked : Option Nat) (dbOk : Bool) (ss ss' : List Sample)
    (st : ZoneTracker × Database × List EngineEvent) :
    runUpdates cfg zt linked dbOk (ss ++ ss') st =
    runUpdates cfg zt linked dbOk ss' (runUpdates cfg zt linked dbOk ss st) := by
  induction ss generalizing st with
  | nil => rfl
  | cons s rest ih =>
    obtain ⟨tr, db, evs⟩ := st
    simp only [List.cons_append, runUpdates]
    exact ih _

/-- Helper: a step that ends in VACANT consumed an absent sample. -/
theorem update_vacant_needs_absent (cfg : EngineConfig) (db : Database)
    (tr : ZoneTracker) (now : ℚ) (p : Bool) (zt : ZoneType)
    (linked : Option Nat) (dbOk : Bool)
    (h : (update cfg db tr now p zt linked dbOk).1.state = ZoneState.VACANT) :
    p = false := by
  cases p
  · rfl
  · exfalso
    cases htr : tr.state
    · simp [update, htr] at h
    · rcases he : tr.entry_start_time with _ | est
      · simp [update, htr, he] at h
      · by_cases hth : cfg.entryThresh zt ≤ now - est
        · simp [update, htr, he, hth] at h
        · simp [update, htr, he, hth] at h
    · by_cases hcp : (truthyTime tr.last_checkpoint_time &&
        decide (cfg.CHECKPOINT_INTERVAL ≤ now - tr.last_checkpoint_time.getD 0)) = true
      · simp [update, htr, hcp, saveOrUpdateCheckpoint_state] at h
      · simp [update, htr, hcp] at h
    · simp [update, htr] at h

/-- Helper: a step that ends in CHECKING_ENTRY came from VACANT on a present
sample (recording `entry_start_time = now`) or was already in CHECKING_ENTRY
on a present sample and left the tracker untouched. -/
theorem update_to_checking_entry (cfg : EngineConfig) (db : Database)
    (tr : ZoneTracker) (now : ℚ) (p : Bool) (zt : ZoneType)
    (linked : Option Nat) (dbOk : Bool)
    (h : (update cfg db tr now p zt linked dbOk).1.state = ZoneState.CHECKING_ENTRY) :
    (tr.state = ZoneState.VACANT ∧ p = true ∧
      (update cfg db tr now p zt linked dbOk).1.entry_start_time = some now) ∨
    (tr.state = ZoneState.CHECKING_ENTRY ∧ p = true ∧
      (update cfg db tr now p zt linked dbOk).1 = tr) := by
  cases p
  · exfalso
    cases htr : tr.state
    · simp [update, htr] at h
    · simp [update, htr] at h
    · simp [update, htr] at h
    · rcases he : tr.exit_start_time with _ | est
      · simp [update, htr, he] at h
      · by_cases hth : cfg.exitThresh zt ≤ now - est
        · simp [update, htr, he, hth, completeSession, ZoneTracker.init] at h
        · simp [update, htr, he, hth] at h
  · cases htr : tr.state
    · left
      refine ⟨rfl, rfl, ?_⟩
      simp [update, htr]
    · right
      refine ⟨rfl, rfl, ?_⟩
      rcases he : tr.entry_start_time with _ | est
      · simp [update, htr, he]
      · by_cases hth : cfg.entryThresh zt ≤ now - est
        · exfalso
          simp [update, htr, he, hth] at h
        · simp [update, htr, he, hth]
    · exfalso
      by_cases hcp : (truthyTime tr.last_checkpoint_time &&
        decide (cfg.CHECKPOINT_INTERVAL ≤ now - tr.last_checkpoint_time.getD 0)) = true
      · simp [update, htr, hcp, saveOrUpdateCheckpoint_state] at h
      · simp [update, htr, hcp] at h
    · exfalso
      simp [update, htr] at h

/-- Helper: the CHECKING_ENTRY → OCCUPIED transition requires a present sample
whose instant lies at least `entry_threshold` past `entry_start_time`. -/
theorem update_entry_confirm (cfg : EngineConfig) (db : Database)
    (tr : ZoneTracker) (now : ℚ) (p : Bool) (zt : ZoneType)
    (linked : Option Nat) (dbOk : Bool)
    (htr : tr.state = ZoneState.CHECKING_ENTRY)
    (h : (update cfg db tr now p zt linked dbOk).1.state = ZoneState.OCCUPIED) :
    p = true ∧ ∃ est, tr.entry_start_time = some est ∧
      cfg.entryThresh zt ≤ now - est := by
  cases p
  · exfalso
    simp [update, htr] at h
  · refine ⟨rfl, ?_⟩
    rcases he : tr.entry_start_time with _ | est
    · exfalso
      simp [update, htr, he] at h
    · refine ⟨est, rfl, ?_⟩
      by_contra hth
      simp [update, htr, he, hth] at h

/-- Helper: a single step never moves VACANT directly to OCCUPIED. -/
theorem update_vacant_no_jump (cfg : EngineConfig) (db : Database)
    (tr : ZoneTracker) (now : ℚ) (p : Bool) (zt : ZoneType)
    (linked : Option Nat) (dbOk : Bool)
    (htr : tr.state = ZoneState.VACANT) :
    (update cfg db tr now p zt linked dbOk).1.state ≠ ZoneState.OCCUPIED := by
  cases p <;> simp [update, htr]

/-- Helper: CHECKING_EXIT is reachable in one step only from OCCUPIED or
CHECKING_EXIT. -/
theorem update_to_checking_exit (cfg : EngineConfig) (db : Database)
    (tr : ZoneTracker) (now : ℚ) (p : Bool) (zt : ZoneType)
    (linked : Option Nat) (dbOk : Bool)
    (h : (update cfg db tr now p zt linked dbOk).1.state = ZoneState.CHECKING_EXIT) :
    tr.state = ZoneState.OCCUPIED ∨ tr.state = ZoneState.CHECKING_EXIT := by
  cases htr : tr.state
  · exfalso
    cases p <;> simp [update, htr] at h
  · exfalso
    cases p
    · simp [update, htr] at h
    · rcases he : tr.entry_start_time with _ | est
      · simp [update, htr, he] at h
      · by_cases hth : cfg.entryThresh zt ≤ now - est
        · simp [update, htr, he, hth] at h
        · simp [update, htr, he, hth] at h
  · exact Or.inl rfl
  · exact Or.inr rfl

/-- Helper run invariant, by induction over the sample list: a run from the
fresh tracker that ends VACANT consumed an absent last sample (or no sample at
all), and a run that ends CHECKING_ENTRY carries in `entry_start_time` the
instant of the first sample of a final unbroken all-present run. -/
theorem entry_run_invariant (cfg : EngineConfig) (zt : ZoneType)
    (linked : Option Nat) (dbOk : Bool) (z : Nat) (db0 : Database)
    (ss : List Sample) :
    ((runFromVacant cfg zt linked dbOk z db0 ss).1.state = ZoneState.VACANT →
      ss = [] ∨ ss.getLast?.map (fun a => a.2) = some false) ∧
    ((runFromVacant cfg zt linked dbOk z db0 ss).1.state = ZoneState.CHECKING_ENTRY →
      ∃ i, i < ss.length ∧
        (runFromVacant cfg zt linked dbOk z db0 ss).1.entry_start_time =
          some (ss.getD i ((0 : ℚ), false)).1 ∧
        (∀ j, i ≤ j → j < ss.length → (ss.getD j ((0 : ℚ), false)).2 = true) ∧
        (i = 0 ∨ (ss.getD (i - 1) ((0 : ℚ), false)).2 = false)) := by
  induction ss using List.reverseRecOn with
  | nil =>
    constructor
    · intro _
      exact Or.inl rfl
    · intro h
      exact absurd h (by simp [runFromVacant, runUpdates, ZoneTracker.init])
  | append_singleton ss a ih =>
    rcases hmid : runFromVacant cfg zt linked dbOk z db0 ss with ⟨mtr, mdb, mevs⟩
    have hstep : runFromVacant cfg zt linked dbOk z db0 (ss ++ [a]) =
        ((update cfg mdb mtr a.1 a.2 zt linked dbOk).1,
         (update cfg mdb mtr a.1 a.2 zt linked dbOk).2.1,
         mevs ++ (update cfg mdb mtr a.1 a.2 zt linked dbOk).2.2) := by
      simp only [runFromVacant] at hmid ⊢
      rw [runUpdates_append, hmid]
      rfl
    rw [hmid] at ih
    simp only [] at ih
    have hgetD : ∀ (j : Nat), j < ss.length →
        (ss ++ [a]).getD j ((0 : ℚ), false) = ss.getD j ((0 : ℚ), false) := by
      intro j hj
      rw [List.getD_eq_getElem?_getD, List.getD_eq_getElem?_getD,
        List.getElem?_append_left hj]
    have hgetDlast : (ss ++ [a]).getD ss.length ((0 : ℚ), false) = a := by
      rw [List.getD_eq_getElem?_getD, List.getElem?_append_right le_rfl]
      simp
    constructor
    · intro h
      rw [hstep] at h
      have hp := update_vacant_needs_absent cfg mdb mtr a.1 a.2 zt linked dbOk h
      right
      rw [List.getLast?_concat]
      simp [hp]
    · intro h
      rw [hstep] at h
      rcases update_to_checking_entry cfg mdb mtr a.1 a.2 zt linked dbOk h with
        ⟨hv, hp, hes⟩ | ⟨hce, hp, heq⟩
      · refine ⟨ss.length, by simp, ?_, ?_, ?_⟩
        · rw [hstep]
          simp only [hes, hgetDlast]
        · intro j hj1 hj2
          have hj : j = ss.length := by
            simp only [List.length_append, List.length_singleton] at hj2
            omega
          subst hj
          rw [hgetDlast]
          exact hp
        · rcases ih.1 hv with hnil | hlast
          · left
            rw [hnil]
            rfl
          · right
            have hne : ss ≠ [] := by
              intro hss
              rw [hss] at hlast
              simp at hlast
            obtain ⟨last, hl, hl2⟩ := Option.map_eq_some'.mp hlast
            have hlen : 0 < ss.length := List.length_pos.mpr hne
            have : (ss ++ [a]).getD (ss.length - 1) ((0 : ℚ), false) = last := by
              rw [hgetD _ (by omega), List.getD_eq_getElem?_getD,
                ← List.getLast?_eq_getElem?, hl]
              rfl
            rw [this]
            exact hl2
      · obtain ⟨i, hilen, hientry, hall, hfirst⟩ := ih.2 hce
        refine ⟨i, by simp only [List.length_append, List.length_singleton]; omega,
          ?_, ?_, ?_⟩
        · rw [hstep]
          simp only [heq, hgetD i hilen]
          exact hientry
        · intro j hj1 hj2
          by_cases hjlen : j < ss.length
          · rw [hgetD j hjlen]
            exact hall j hj1 hjlen
          · have hj : j = ss.length := by
              simp only [List.length_append, List.length_singleton] at hj2
              omega
            subst hj
            rw [hgetDlast]
            exact hp
        · rcases hfirst with h0 | habs
          · exact Or.inl h0
          · right
            rw [hgetD _ (by omega)]
            exact habs

/-- Helper: while no prefix of the run has ever confirmed occupancy, the
machine stays within the VACANT / CHECKING_ENTRY debounce states. -/
theorem no_occupied_run_states (cfg : EngineConfig) (zt : ZoneType)
    (linked : Option Nat) (dbOk : Bool) (z : Nat) (db0 : Database)
    (ss : List Sample)
    (h : ∀ n, n ≤ ss.length →
      (runFromVacant cfg zt linked dbOk z db0 (ss.take n)).1.state ≠
        ZoneState.OCCUPIED) :
    (runFromVacant cfg zt linked dbOk z db0 ss).1.state = ZoneState.VACANT ∨
    (runFromVacant cfg zt linked dbOk z db0 ss).1.state = ZoneState.CHECKING_ENTRY := by
  induction ss using List.reverseRecOn with
  | nil => exact Or.inl rfl
  | append_singleton ss a ih =>
    have hih := ih (fun n hn => by
      have h2 := h n (by simp only [List.length_append, List.length_singleton]; omega)
      rwa [List.take_append_of_le_length hn] at h2)
    rcases hmid : runFromVacant cfg zt linked dbOk z db0 ss with ⟨mtr, mdb, mevs⟩
    have hstep : runFromVacant cfg zt linked dbOk z db0 (ss ++ [a]) =
        ((update cfg mdb mtr a.1 a.2 zt linked dbOk).1,
         (update cfg mdb mtr a.1 a.2 zt linked dbOk).2.1,
         mevs ++ (update cfg mdb mtr a.1 a.2 zt linked dbOk).2.2) := by
      simp only [runFromVacant] at hmid ⊢
      rw [runUpdates_append, hmid]
      rfl
    rw [hmid] at hih
    simp only [] at hih
    have hfull := h (ss.length + 1) (by simp)
    rw [show (ss ++ [a]).take (ss.length + 1) = ss ++ [a] by
      apply List.take_of_length_le
      simp] at hfull
    rw [hstep] at hfull ⊢
    cases hres : (update cfg mdb mtr a.1 a.2 zt linked dbOk).1.state
    · exact Or.inl rfl
    · exact Or.inr rfl
    · exact absurd hres hfull
    · exfalso
      rcases update_to_checking_exit cfg mdb mtr a.1 a.2 zt linked dbOk hres with
        ho | ho <;> rcases hih with hv | hv <;> rw [hv] at ho <;> cases ho

/-- C1: a zone transitions from the debounce states to OCCUPIED only when the
trace ends in an unbroken run of present samples — started either at the very
first sample or right after an absent one — whose span reaches
`entry_threshold`; and one absent sample while still in CHECKING_ENTRY resets
the tracker to VACANT with the store untouched, nothing persisted and no
event emitted. -/
theorem debounce_correctness
    (cfg : EngineConfig) (zt : ZoneType) (linked : Option Nat) (dbOk : Bool)
    (z : Nat) (db0 : Database) (ss : List Sample) (s : Sample)
    (hpre : ∀ n, n ≤ ss.length →
      (runFromVacant cfg zt linked dbOk z db0 (ss.take n)).1.state ≠
        ZoneState.OCCUPIED)
    (hocc : (runFromVacant cfg zt linked dbOk z db0 (ss ++ [s])).1.state =
        ZoneState.OCCUPIED) :
    (∃ i, i < (ss ++ [s]).length ∧
      (∀ j, i ≤ j → j < (ss ++ [s]).length →
        ((ss ++ [s]).getD j ((0 : ℚ), false)).2 = true) ∧
      (i = 0 ∨ ((ss ++ [s]).getD (i - 1) ((0 : ℚ), false)).2 = false) ∧
      cfg.entryThresh zt ≤ s.1 - ((ss ++ [s]).getD i ((0 : ℚ), false)).1) ∧
    (∀ (db : Database) (tr : ZoneTracker) (t : ℚ),
      tr.state = ZoneState.CHECKING_ENTRY →
      update cfg db tr t false zt linked dbOk =
        ({ tr with state := ZoneState.VACANT, entry_start_time := none },
          db, [])) := by
  constructor
  · rcases hmid : runFromVacant cfg zt linked dbOk z db0 ss with ⟨mtr, mdb, mevs⟩
    have hstep : runFromVacant cfg zt linked dbOk z db0 (ss ++ [s]) =
        ((update cfg mdb mtr s.1 s.2 zt linked dbOk).1,
         (update cfg mdb mtr s.1 s.2 zt linked dbOk).2.1,
         mevs ++ (update cfg mdb mtr s.1 s.2 zt linked dbOk).2.2) := by
      simp only [runFromVacant] at hmid ⊢
      rw [runUpdates_append, hmid]
      rfl
    rw [hstep] at hocc
    have hmidstate := no_occupied_run_states cfg zt linked dbOk z db0 ss hpre
    rw [hmid] at hmidstate
    simp only [] at hmidstate
    have hce : mtr.state = ZoneState.CHECKING_ENTRY := by
      rcases hmidstate with hv | hv
      · exact absurd hocc (update_vacant_no_jump cfg mdb mtr s.1 s.2 zt linked dbOk hv)
      · exact hv
    obtain ⟨hp, est, hentry, hth⟩ :=
      update_entry_confirm cfg mdb mtr s.1 s.2 zt linked dbOk hce hocc
    have hinv := (entry_run_invariant cfg zt linked dbOk z db0 ss).2
    rw [hmid] at hinv
    simp only [] at hinv
    obtain ⟨i, hilen, hientry, hall, hfirst⟩ := hinv hce
    have hgetD : ∀ (j : Nat), j < ss.length →
        (ss ++ [s]).getD j ((0 : ℚ), false) = ss.getD j ((0 : ℚ), false) := by
      intro j hj
      rw [List.getD_eq_getElem?_getD, List.getD_eq_getElem?_getD,
        List.getElem?_append_left hj]
    have hgetDlast : (ss ++ [s]).getD ss.length ((0 : ℚ), false) = s := by
      rw [List.getD_eq_getElem?_getD, List.getElem?_append_right le_rfl]
      simp
    have hest : est = (ss.getD i ((0 : ℚ), false)).1 := by
      rw [hentry] at hientry
      exact Option.some_injective _ hientry
    refine ⟨i, by simp only [List.length_append, List.length_singleton]; omega,
      ?_, ?_, ?_⟩
    · intro j hj1 hj2
      by_cases hjlen : j < ss.length
      · rw [hgetD j hjlen]
        exact hall j hj1 hjlen
      · have hj : j = ss.length := by
          simp only [List.length_append, List.length_singleton] at hj2
          omega
        subst hj
        rw [hgetDlast]
        exact hp
    · rcases hfirst with h0 | habs
      · exact Or.inl h0
      · right
        rw [hgetD _ (by omega)]
        exact habs
    · rw [hgetD i hilen, ← hest]
      exact hth
  · intro db tr t htr
    simp [update, htr]

/-- Witness for C1: presence at instants 1,2,3,4 with a 3-second entry
threshold first reaches OCCUPIED on the fourth sample, so the trace ends in an
all-present run of span at least 3; and an absent sample in CHECKING_ENTRY
always resets to VACANT with nothing persisted. -/
theorem debounce_correctness_witness :
    (∃ i, i < ([((1 : ℚ), true), (2, true), (3, true)] ++
        [((4 : ℚ), true)]).length ∧
      (∀ j, i ≤ j → j < ([((1 : ℚ), true), (2, true), (3, true)] ++
          [((4 : ℚ), true)]).length →
        (([((1 : ℚ), true), (2, true), (3, true)] ++
          [((4 : ℚ), true)]).getD j ((0 : ℚ), false)).2 = true) ∧
      (i = 0 ∨ (([((1 : ℚ), true), (2, true), (3, true)] ++
          [((4 : ℚ), true)]).getD (i - 1) ((0 : ℚ), false)).2 = false) ∧
      (⟨3, 10, 60, 10, 300⟩ : EngineConfig).entryThresh ZoneType.employee ≤
        ((4 : ℚ), true).1 - (([((1 : ℚ), true), (2, true), (3, true)] ++
          [((4 : ℚ), true)]).getD i ((0 : ℚ), false)).1) ∧
    (∀ (db : Database) (tr : ZoneTracker) (t : ℚ),
      tr.state = ZoneState.CHECKING_ENTRY →
      update ⟨3, 10, 60, 10, 300⟩ db tr t false ZoneType.employee none true =
        ({ tr with state := ZoneState.VACANT, entry_start_time := none },
          db, [])) :=
  debounce_correctness ⟨3, 10, 60, 10, 300⟩ ZoneType.employee none true 1
    ⟨[], [], [], [], 1, 1⟩ [(1, true), (2, true), (3, true)] (4, true)
    (by
      intro n hn
      have hn3 : n ≤ 3 := by simpa using hn
      interval_cases n <;>
        (norm_num [runFromVacant, runUpdates, update, ZoneTracker.init,
          truthyTime, truthyNat, EngineConfig.entryThresh]; decide))
    (by
      norm_num [runFromVacant, runUpdates, update, ZoneTracker.init,
        truthyTime, truthyNat, EngineConfig.entryThresh])

/-- Witness for the amended C8: the third consecutive failure with jitter 3
stores `min (10·2³) 300 + 3 = 83`, between the capped term and 305. -/
theorem backoff_monotone_capped_before_jitter_witness :
    (onSyncFailure ⟨2, 40, false⟩ 3).consecutive_failures = 3 ∧
    (onSyncFailure ⟨2, 40, false⟩ 3).is_healthy = false ∧
    (onSyncFailure ⟨2, 40, false⟩ 3).current_sync_interval =
      min (SYNC_INTERVAL_NORMAL * BACKOFF_MULTIPLIER ^ 3) SYNC_INTERVAL_MAX + 3 ∧
    (∀ m n : Nat, m ≤ n →
      min (SYNC_INTERVAL_NORMAL * BACKOFF_MULTIPLIER ^ m) SYNC_INTERVAL_MAX ≤
      min (SYNC_INTERVAL_NORMAL * BACKOFF_MULTIPLIER ^ n) SYNC_INTERVAL_MAX) ∧
    min (SYNC_INTERVAL_NORMAL * BACKOFF_MULTIPLIER ^ 3) SYNC_INTERVAL_MAX ≤
      (onSyncFailure ⟨2, 40, false⟩ 3).current_sync_interval ∧
    (onSyncFailure ⟨2, 40, false⟩ 3).current_sync_interval ≤
      SYNC_INTERVAL_MAX + JITTER_MAX ∧
    (∀ stx : BackoffState, onSyncSuccess stx = BackoffState.init) :=
  backoff_monotone_capped_before_jitter ⟨2, 40, false⟩ 3
    (by norm_num) (by norm_num [JITTER_MAX])

/-- Helper: an upsert never removes a composite key from the remote table. -/
theorem cloudHasSessionKey_upsert (rows : List CloudSessionRow)
    (row : CloudSessionRow) (b lid : Nat)
    (h : cloudHasSessionKey rows b lid = true) :
    cloudHasSessionKey (upsertCloudSession rows row) b lid = true := by
  simp only [cloudHasSessionKey, List.any_eq_true] at h ⊢
  obtain ⟨r, hr, hkey⟩ := h
  simp only [upsertCloudSession]
  split
  · refine ⟨_, List.mem_map_of_mem _ hr, ?_⟩
    by_cases hc : (r.branch_id == row.branch_id && r.local_id == row.local_id) = true
    · rw [if_pos hc]
      exact hkey
    · rw [if_neg hc]
      exact hkey
  · exact ⟨r, List.mem_append_left _ hr, hkey⟩

/-- Helper: after an upsert the upserted composite key is present. -/
theorem cloudHasSessionKey_upsert_self (rows : List CloudSessionRow)
    (row : CloudSessionRow) :
    cloudHasSessionKey (upsertCloudSession rows row)
      row.branch_id row.local_id = true := by
  simp only [upsertCloudSession]
  split
  · next hc =>
    simp only [List.any_eq_true] at hc
    obtain ⟨r, hr, hkey⟩ := hc
    simp only [cloudHasSessionKey, List.any_eq_true]
    refine ⟨_, List.mem_map_of_mem _ hr, ?_⟩
    rw [if_pos hkey]
    exact hkey
  · simp [cloudHasSessionKey]

/-- Helper: the visit analogue of `cloudHasSessionKey_upsert`. -/
theorem cloudHasVisitKey_upsert (rows : List CloudVisitRow)
    (row : CloudVisitRow) (b lid : Nat)
    (h : cloudHasVisitKey rows b lid = true) :
    cloudHasVisitKey (upsertCloudVisit rows row) b lid = true := by
  simp only [cloudHasVisitKey, List.any_eq_true] at h ⊢
  obtain ⟨r, hr, hkey⟩ := h
  simp only [upsertCloudVisit]
  split
  · refine ⟨_, List.mem_map_of_mem _ hr, ?_⟩
    by_cases hc : (r.branch_id == row.branch_id && r.local_id == row.local_id) = true
    · rw [if_pos hc]
      exact hkey
    · rw [if_neg hc]
      exact hkey
  · exact ⟨r, List.mem_append_left _ hr, hkey⟩

/-- Helper: the visit analogue of `cloudHasSessionKey_upsert_self`. -/
theorem cloudHasVisitKey_upsert_self (rows : List CloudVisitRow)
    (row : CloudVisitRow) :
    cloudHasVisitKey (upsertCloudVisit rows row)
      row.branch_id row.local_id = true := by
  simp only [upsertCloudVisit]
  split
  · next hc =>
    simp only [List.any_eq_true] at hc
    obtain ⟨r, hr, hkey⟩ := hc
    simp only [cloudHasVisitKey, List.any_eq_true]
    refine ⟨_, List.mem_map_of_mem _ hr, ?_⟩
    rw [if_pos hkey]
    exact hkey
  · simp [cloudHasVisitKey]

/-- Helper: a committed upload preserves every remote composite key. -/
theorem cloudHasSessionKey_upload (branch : Nat) (records : List SessionRec) :
    ∀ (cloud : List CloudSessionRow) (b lid : Nat),
    cloudHasSessionKey cloud b lid = true →
    cloudHasSessionKey (uploadSessionsToCloud cloud branch records true) b lid
      = true := by
  induction records with
  | nil => exact fun cloud b lid h => h
  | cons r rs ih =>
    intro cloud b lid h
    exact ih _ b lid (cloudHasSessionKey_upsert _ _ _ _ h)

/-- Helper: a committed upload installs the key of every record of the batch. -/
theorem cloudHasSessionKey_upload_mem (branch : Nat) (records : List SessionRec) :
    ∀ (cloud : List CloudSessionRow) (r : SessionRec), r ∈ records →
    cloudHasSessionKey (uploadSessionsToCloud cloud branch records true)
      branch r.id = true := by
  induction records with
  | nil =>
    intro cloud r hr
    cases hr
  | cons x rs ih =>
    intro cloud r hr
    rcases List.mem_cons.mp hr with rfl | hr
    · exact cloudHasSessionKey_upload branch rs _ _ _
        (cloudHasSessionKey_upsert_self cloud (sessionCloudRow branch r))
    · exact ih _ r hr

/-- Helper: the visit analogue of `cloudHasSessionKey_upload`. -/
theorem cloudHasVisitKey_upload (branch : Nat) (records : List ClientVisitRec) :
    ∀ (cloud : List CloudVisitRow) (b lid : Nat),
    cloudHasVisitKey cloud b lid = true →
    cloudHasVisitKey (uploadVisitsToCloud cloud branch records true) b lid
      = true := by
  induction records with
  | nil => exact fun cloud b lid h => h
  | cons r rs ih =>
    intro cloud b lid h
    exact ih _ b lid (cloudHasVisitKey_upsert _ _ _ _ h)

/-- Helper: the visit analogue of `cloudHasSessionKey_upload_mem`. -/
theorem cloudHasVisitKey_upload_mem (branch : Nat) (records : List ClientVisitRec) :
    ∀ (cloud : List CloudVisitRow) (r : ClientVisitRec), r ∈ records →
    cloudHasVisitKey (uploadVisitsToCloud cloud branch records true)
      branch r.id = true := by
  induction records with
  | nil =>
    intro cloud r hr
    cases hr
  | cons x rs ih =>
    intro cloud r hr
    rcases List.mem_cons.mp hr with rfl | hr
    · exact cloudHasVisitKey_upload branch rs _ _ _
        (cloudHasVisitKey_upsert_self cloud (visitCloudRow branch r))
    · exact ih _ r hr

/-- Helper: marking session ids as synced keeps each row's id and raises
`is_synced` only on rows whose id is in the list. -/
theorem markSessionsSynced_getD (db : Database) (ids : List Nat) (i : Nat) :
    ((db.markSessionsSynced ids).sessions.getD i dummySession).id =
      (db.sessions.getD i dummySession).id ∧
    (((db.markSessionsSynced ids).sessions.getD i dummySession).is_synced = 1 →
      (db.sessions.getD i dummySession).is_synced = 1 ∨
      (db.sessions.getD i dummySession).id ∈ ids) := by
  by_cases hemp : ids.isEmpty
  · exact ⟨by simp [Database.markSessionsSynced, hemp], fun hs => Or.inl (by
      simpa [Database.markSessionsSynced, hemp] using hs)⟩
  · simp only [Database.markSessionsSynced, hemp, Bool.false_eq_true, if_false,
      List.getD_eq_getElem?_getD, List.getElem?_map]
    cases h : db.sessions[i]? with
    | none => exact ⟨rfl, fun hs => Or.inl hs⟩
    | some r =>
      simp only [Option.map_some', Option.getD_some]
      constructor
      · split <;> rfl
      · intro hs
        split at hs
        · next hm => exact Or.inr (by simpa using hm)
        · exact Or.inl hs

/-- Helper: the visit analogue of `markSessionsSynced_getD`. -/
theorem markVisitsSynced_getD (db : Database) (ids : List Nat) (i : Nat) :
    ((db.markVisitsSynced ids).client_visits.getD i dummyVisit).id =
      (db.client_visits.getD i dummyVisit).id ∧
    (((db.markVisitsSynced ids).client_visits.getD i dummyVisit).is_synced = 1 →
      (db.client_visits.getD i dummyVisit).is_synced = 1 ∨
      (db.client_visits.getD i dummyVisit).id ∈ ids) := by
  by_cases hemp : ids.isEmpty
  · exact ⟨by simp [Database.markVisitsSynced, hemp], fun hs => Or.inl (by
      simpa [Database.markVisitsSynced, hemp] using hs)⟩
  · simp only [Database.markVisitsSynced, hemp, Bool.false_eq_true, if_false,
      List.getD_eq_getElem?_getD, List.getElem?_map]
    cases h : db.client_visits[i]? with
    | none => exact ⟨rfl, fun hs => Or.inl hs⟩
    | some r =>
      simp only [Option.map_some', Option.getD_some]
      constructor
      · split <;> rfl
      · intro hs
        split at hs
        · next hm => exact Or.inr (by simpa using hm)
        · exact Or.inl hs

/-- Helper: marking visits synced leaves the sessions table untouched. -/
theorem markVisitsSynced_sessions (db : Database) (ids : List Nat) :
    (db.markVisitsSynced ids).sessions = db.sessions := by
  by_cases hemp : ids.isEmpty <;> simp [Database.markVisitsSynced, hemp]

/-- Helper: marking sessions synced leaves the client_visits table untouched. -/
theorem markSessionsSynced_visits (db : Database) (ids : List Nat) :
    (db.markSessionsSynced ids).client_visits = db.client_visits := by
  by_cases hemp : ids.isEmpty <;> simp [Database.markSessionsSynced, hemp]

/-- Unfolding equation: nothing to sync — the pass reports success. -/
theorem syncDataLoop_eq_nodata (branch fuel : Nat) (db : Database)
    (cs : List CloudSessionRow) (cv : List CloudVisitRow) (outcomes : List Bool)
    (attempts : List SyncAttempt) (anySuccess : Bool)
    (h1 : (db.getUnsyncedSessions BATCH_SIZE).isEmpty = true)
    (h2 : (db.getUnsyncedClientVisits BATCH_SIZE).isEmpty = true) :
    syncDataLoop branch (fuel + 1) db cs cv outcomes attempts anySuccess =
      ⟨db, cs, cv, attempts, true⟩ := by
  simp only [syncDataLoop]
  rw [if_pos h1, if_pos h2]

/-- Unfolding equation: no sessions, a visits batch whose upload commits. -/
theorem syncDataLoop_eq_vcommit (branch fuel : Nat) (db : Database)
    (cs : List CloudSessionRow) (cv : List CloudVisitRow) (outcomes : List Bool)
    (attempts : List SyncAttempt) (anySuccess : Bool)
    (h1 : (db.getUnsyncedSessions BATCH_SIZE).isEmpty = true)
    (h2 : (db.getUnsyncedClientVisits BATCH_SIZE).isEmpty = false)
    (h3 : outcomes.headD false = true) :
    syncDataLoop branch (fuel + 1) db cs cv outcomes attempts anySuccess =
      syncDataLoop branch fuel
        (db.markVisitsSynced
          ((db.getUnsyncedClientVisits BATCH_SIZE).map (fun r => r.id)))
        cs (uploadVisitsToCloud cv branch (db.getUnsyncedClientVisits BATCH_SIZE) true)
        outcomes.tail
        (attempts ++ [⟨SyncKind.client_visit,
          (db.getUnsyncedClientVisits BATCH_SIZE).map (fun r => r.id), true⟩])
        true := by
  simp only [syncDataLoop]
  rw [if_pos h1, if_neg (by simp [h2]), if_pos h3]

/-- Unfolding equation: no sessions, a visits batch whose upload fails — the
pass ends at once. -/
theorem syncDataLoop_eq_vfail (branch fuel : Nat) (db : Database)
    (cs : List CloudSessionRow) (cv : List CloudVisitRow) (outcomes : List Bool)
    (attempts : List SyncAttempt) (anySuccess : Bool)
    (h1 : (db.getUnsyncedSessions BATCH_SIZE).isEmpty = true)
    (h2 : (db.getUnsyncedClientVisits BATCH_SIZE).isEmpty = false)
    (h3 : outcomes.headD false = false) :
    syncDataLoop branch (fuel + 1) db cs cv outcomes attempts anySuccess =
      ⟨db, cs, cv, attempts ++ [⟨SyncKind.client_visit,
        (db.getUnsyncedClientVisits BATCH_SIZE).map (fun r => r.id), false⟩],
        anySuccess⟩ := by
  simp only [syncDataLoop]
  rw [if_pos h1, if_neg (by simp [h2]), if_neg (by rw [h3]; exact Bool.false_ne_true)]

/-- Unfolding equation: a sessions batch whose upload fails — the pass ends at
once. -/
theorem syncDataLoop_eq_sfail (branch fuel : Nat) (db : Database)
    (cs : List CloudSessionRow) (cv : List CloudVisitRow) (outcomes : List Bool)
    (attempts : List SyncAttempt) (anySuccess : Bool)
    (h1 : (db.getUnsyncedSessions BATCH_SIZE).isEmpty = false)
    (h3 : outcomes.headD false = false) :
    syncDataLoop branch (fuel + 1) db cs cv outcomes attempts anySuccess =
      ⟨db, cs, cv, attempts ++ [⟨SyncKind.session,
        (db.getUnsyncedSessions BATCH_SIZE).map (fun r => r.id), false⟩],
        anySuccess⟩ := by
  simp only [syncDataLoop]
  rw [if_neg (by simp [h1]), if_neg (by rw [h3]; exact Bool.false_ne_true)]

/-- Unfolding equation: a committed sessions batch with no visits backlog. -/
theorem syncDataLoop_eq_scommit_novisits (branch fuel : Nat) (db : Database)
    (cs : List CloudSessionRow) (cv : List CloudVisitRow) (outcomes : List Bool)
    (attempts : List SyncAttempt) (anySuccess : Bool)
    (h1 : (db.getUnsyncedSessions BATCH_SIZE).isEmpty = false)
    (h3 : outcomes.headD false = true)
    (h4 : ((db.markSessionsSynced
        ((db.getUnsyncedSessions BATCH_SIZE).map (fun r => r.id))).getUnsyncedClientVisits
        BATCH_SIZE).isEmpty = true) :
    syncDataLoop branch (fuel + 1) db cs cv outcomes attempts anySuccess =
      syncDataLoop branch fuel
        (db.markSessionsSynced ((db.getUnsyncedSessions BATCH_SIZE).map (fun r => r.id)))
        (uploadSessionsToCloud cs branch (db.getUnsyncedSessions BATCH_SIZE) true)
        cv outcomes.tail
        (attempts ++ [⟨SyncKind.session,
          (db.getUnsyncedSessions BATCH_SIZE).map (fun r => r.id), true⟩])
        true := by
  simp only [syncDataLoop]
  rw [if_neg (by simp [h1]), if_pos h3, if_pos h4]

/-- Unfolding equation: a committed sessions batch followed by a committed
visits batch. -/
theorem syncDataLoop_eq_scommit_vcommit (branch fuel : Nat) (db : Database)
    (cs : List CloudSessionRow) (cv : List CloudVisitRow) (outcomes : List Bool)
    (attempts : List SyncAttempt) (anySuccess : Bool)
    (h1 : (db.getUnsyncedSessions BATCH_SIZE).isEmpty = false)
    (h3 : outcomes.headD false = true)
    (h4 : ((db.markSessionsSynced
        ((db.getUnsyncedSessions BATCH_SIZE).map (fun r => r.id))).getUnsyncedClientVisits
        BATCH_SIZE).isEmpty = false)
    (h5 : outcomes.tail.headD false = true) :
    syncDataLoop branch (fuel + 1) db cs cv outcomes attempts anySuccess =
      syncDataLoop branch fuel
        ((db.markSessionsSynced
            ((db.getUnsyncedSessions BATCH_SIZE).map (fun r => r.id))).markVisitsSynced
          (((db.markSessionsSynced
              ((db.getUnsyncedSessions BATCH_SIZE).map (fun r => r.id))).getUnsyncedClientVisits
              BATCH_SIZE).map (fun r => r.id)))
        (uploadSessionsToCloud cs branch (db.getUnsyncedSessions BATCH_SIZE) true)
        (uploadVisitsToCloud cv branch
          ((db.markSessionsSynced
              ((db.getUnsyncedSessions BATCH_SIZE).map (fun r => r.id))).getUnsyncedClientVisits
              BATCH_SIZE) true)
        outcomes.tail.tail
        ((attempts ++ [⟨SyncKind.session,
            (db.getUnsyncedSessions BATCH_SIZE).map (fun r => r.id), true⟩]) ++
          [⟨SyncKind.client_visit,
            ((db.markSessionsSynced
                ((db.getUnsyncedSessions BATCH_SIZE).map (fun r => r.id))).getUnsyncedClientVisits
                BATCH_SIZE).map (fun r => r.id), true⟩])
        true := by
  simp only [syncDataLoop]
  rw [if_neg (by simp [h1]), if_pos h3, if_neg (by simp [h4]), if_pos h5]

/-- Unfolding equation: a committed sessions batch followed by a failed visits
batch — the pass ends with the session batch counted as success. -/
theorem syncDataLoop_eq_scommit_vfail (branch fuel : Nat) (db : Database)
    (cs : List CloudSessionRow) (cv : List CloudVisitRow) (outcomes : List Bool)
    (attempts : List SyncAttempt) (anySuccess : Bool)
    (h1 : (db.getUnsyncedSessions BATCH_SIZE).isEmpty = false)
    (h3 : outcomes.headD false = true)
    (h4 : ((db.markSessionsSynced
        ((db.getUnsyncedSessions BATCH_SIZE).map (fun r => r.id))).getUnsyncedClientVisits
        BATCH_SIZE).isEmpty = false)
    (h5 : outcomes.tail.headD false = false) :
    syncDataLoop branch (fuel + 1) db cs cv outcomes attempts anySuccess =
      ⟨db.markSessionsSynced ((db.getUnsyncedSessions BATCH_SIZE).map (fun r => r.id)),
       uploadSessionsToCloud cs branch (db.getUnsyncedSessions BATCH_SIZE) true,
       cv,
       (attempts ++ [⟨SyncKind.session,
          (db.getUnsyncedSessions BATCH_SIZE).map (fun r => r.id), true⟩]) ++
        [⟨SyncKind.client_visit,
          ((db.markSessionsSynced
              ((db.getUnsyncedSessions BATCH_SIZE).map (fun r => r.id))).getUnsyncedClientVisits
              BATCH_SIZE).map (fun r => r.id), false⟩],
       true⟩ := by
  simp only [syncDataLoop]
  rw [if_neg (by simp [h1]), if_pos h3, if_neg (by simp [h4]), if_neg (by rw [h5]; exact Bool.false_ne_true)]

/-- Master audit of one `_sync_data` pass, by induction on the batch budget:
the pass appends an attempt log in which every locally newly-marked record
belongs to some committed batch whose keys reached the remote store, any
failed attempt is the last one, and the failed batch is still exactly the
head of the unsynced backlog of the final local store. -/
theorem syncDataLoop_audit (branch : Nat) : ∀ (fuel : Nat) (db : Database)
    (cs : List CloudSessionRow) (cv : List CloudVisitRow) (outcomes : List Bool)
    (attempts : List SyncAttempt) (anySuccess : Bool),
    ∃ newAtts : List SyncAttempt,
      (syncDataLoop branch fuel db cs cv outcomes attempts anySuccess).attempts =
        attempts ++ newAtts ∧
      (∀ i : Nat,
        ((syncDataLoop branch fuel db cs cv outcomes attempts
            anySuccess).db.sessions.getD i dummySession).is_synced = 1 →
        (db.sessions.getD i dummySession).is_synced = 1 ∨
        ∃ a ∈ newAtts, a.kind = SyncKind.session ∧ a.ok = true ∧
          (db.sessions.getD i dummySession).id ∈ a.ids) ∧
      (∀ i : Nat,
        ((syncDataLoop branch fuel db cs cv outcomes attempts
            anySuccess).db.client_visits.getD i dummyVisit).is_synced = 1 →
        (db.client_visits.getD i dummyVisit).is_synced = 1 ∨
        ∃ a ∈ newAtts, a.kind = SyncKind.client_visit ∧ a.ok = true ∧
          (db.client_visits.getD i dummyVisit).id ∈ a.ids) ∧
      (∀ pre a post, newAtts = pre ++ a :: post → a.ok = false →
        post = [] ∧
        (a.kind = SyncKind.session → a.ids =
          ((syncDataLoop branch fuel db cs cv outcomes attempts
            anySuccess).db.getUnsyncedSessions BATCH_SIZE).map (fun r => r.id)) ∧
        (a.kind = SyncKind.client_visit → a.ids =
          ((syncDataLoop branch fuel db cs cv outcomes attempts
            anySuccess).db.getUnsyncedClientVisits BATCH_SIZE).map (fun r => r.id))) ∧
      (∀ b lid : Nat, cloudHasSessionKey cs b lid = true →
        cloudHasSessionKey (syncDataLoop branch fuel db cs cv outcomes attempts
          anySuccess).cloudSessions b lid = true) ∧
      (∀ b lid : Nat, cloudHasVisitKey cv b lid = true →
        cloudHasVisitKey (syncDataLoop branch fuel db cs cv outcomes attempts
          anySuccess).cloudVisits b lid = true) ∧
      (∀ a ∈ newAtts, a.ok = true →
        (a.kind = SyncKind.session → ∀ lid ∈ a.ids,
          cloudHasSessionKey (syncDataLoop branch fuel db cs cv outcomes attempts
            anySuccess).cloudSessions branch lid = true) ∧
        (a.kind = SyncKind.client_visit → ∀ lid ∈ a.ids,
          cloudHasVisitKey (syncDataLoop branch fuel db cs cv outcomes attempts
            anySuccess).cloudVisits branch lid = true)) := by
  intro fuel
  induction fuel with
  | zero =>
    intro db cs cv outcomes attempts anySuccess
    refine ⟨[], by simp [syncDataLoop], ?_, ?_, ?_, ?_, ?_, ?_⟩
    · intro i h
      exact Or.inl h
    · intro i h
      exact Or.inl h
    · intro pre a post hp _
      exact absurd hp (by simp)
    · intro b lid h
      exact h
    · intro b lid h
      exact h
    · intro a ha
      cases ha
  | succ fuel ih =>
    intro db cs cv outcomes attempts anySuccess
    by_cases h1 : (db.getUnsyncedSessions BATCH_SIZE).isEmpty = true
    · by_cases h2 : (db.getUnsyncedClientVisits BATCH_SIZE).isEmpty = true
      · rw [syncDataLoop_eq_nodata branch fuel db cs cv outcomes attempts
          anySuccess h1 h2]
        refine ⟨[], by simp, ?_, ?_, ?_, ?_, ?_, ?_⟩
        · intro i h
          exact Or.inl h
        · intro i h
          exact Or.inl h
        · intro pre a post hp _
          exact absurd hp (by simp)
        · intro b lid h
          exact h
        · intro b lid h
          exact h
        · intro a ha
          cases ha
      · have h2f : (db.getUnsyncedClientVisits BATCH_SIZE).isEmpty = false :=
          Bool.eq_false_iff.mpr h2
        by_cases h3 : outcomes.headD false = true
        · rw [syncDataLoop_eq_vcommit branch fuel db cs cv outcomes attempts
            anySuccess h1 h2f h3]
          obtain ⟨newAtts, ha, hs, hv, hf, hcs, hcv, hrem⟩ :=
            ih (db.markVisitsSynced
                ((db.getUnsyncedClientVisits BATCH_SIZE).map (fun r => r.id)))
              cs (uploadVisitsToCloud cv branch
                (db.getUnsyncedClientVisits BATCH_SIZE) true)
              outcomes.tail
              (attempts ++ [⟨SyncKind.client_visit,
                (db.getUnsyncedClientVisits BATCH_SIZE).map (fun r => r.id), true⟩])
              true
          refine ⟨⟨SyncKind.client_visit,
            (db.getUnsyncedClientVisits BATCH_SIZE).map (fun r => r.id), true⟩ ::
            newAtts, by rw [ha]; simp, ?_, ?_, ?_, ?_, ?_, ?_⟩
          · intro i h
            rcases hs i h with h' | ⟨a, hma, hk, hok, hid⟩
            · rw [markVisitsSynced_sessions] at h'
              exact Or.inl h'
            · right
              refine ⟨a, List.mem_cons_of_mem _ hma, hk, hok, ?_⟩
              rwa [markVisitsSynced_sessions] at hid
          · intro i h
            rcases hv i h with h' | ⟨a, hma, hk, hok, hid⟩
            · rcases (markVisitsSynced_getD db _ i).2 h' with h'' | h''
              · exact Or.inl h''
              · exact Or.inr ⟨_, List.mem_cons_self _ _, rfl, rfl, h''⟩
            · right
              refine ⟨a, List.mem_cons_of_mem _ hma, hk, hok, ?_⟩
              rwa [(markVisitsSynced_getD db _ i).1] at hid
          · intro pre a post hp hfid
            cases pre with
            | nil =>
              simp only [List.nil_append, List.cons.injEq] at hp
              exact absurd hfid (by simp [← hp.1])
            | cons x pre' =>
              simp only [List.cons_append, List.cons.injEq] at hp
              exact hf pre' a post hp.2 hfid
          · intro b lid h
            exact hcs b lid h
          · intro b lid h
            exact hcv b lid (cloudHasVisitKey_upload branch _ cv b lid h)
          · intro a hma hok
            rcases List.mem_cons.mp hma with rfl | ha'
            · refine ⟨?_, ?_⟩
              · intro hk
                exact absurd hk (by simp)
              · intro _ lid hlid
                obtain ⟨r, hrmem, rfl⟩ := List.mem_map.mp hlid
                exact hcv branch r.id
                  (cloudHasVisitKey_upload_mem branch _ cv r hrmem)
            · exact hrem a ha' hok
        · have h3f : outcomes.headD false = false := Bool.eq_false_iff.mpr h3
          rw [syncDataLoop_eq_vfail branch fuel db cs cv outcomes attempts
            anySuccess h1 h2f h3f]
          refine ⟨[⟨SyncKind.client_visit,
            (db.getUnsyncedClientVisits BATCH_SIZE).map (fun r => r.id), false⟩],
            by simp, ?_, ?_, ?_, ?_, ?_, ?_⟩
          · intro i h
            exact Or.inl h
          · intro i h
            exact Or.inl h
          · intro pre a post hp _
            cases pre with
            | nil =>
              simp only [List.nil_append, List.cons.injEq] at hp
              obtain ⟨ha1, ha2⟩ := hp
              subst ha2
              refine ⟨rfl, ?_, ?_⟩
              · intro hk
                rw [← ha1] at hk
                exact absurd hk (by simp)
              · intro _
                rw [← ha1]
            | cons x pre' =>
              simp only [List.cons_append, List.cons.injEq] at hp
              exact absurd hp.2 (by simp)
          · intro b lid h
            exact h
          · intro b lid h
            exact h
          · intro a hma hok
            rcases List.mem_cons.mp hma with rfl | ha'
            · exact absurd hok (by simp)
            · cases ha'
    · have h1f : (db.getUnsyncedSessions BATCH_SIZE).isEmpty = false :=
        Bool.eq_false_iff.mpr h1
      by_cases h3 : outcomes.headD false = true
      · by_cases h4 : ((db.markSessionsSynced
            ((db.getUnsyncedSessions BATCH_SIZE).map
              (fun r => r.id))).getUnsyncedClientVisits BATCH_SIZE).isEmpty = true
        · rw [syncDataLoop_eq_scommit_novisits branch fuel db cs cv outcomes
            attempts anySuccess h1f h3 h4]
          obtain ⟨newAtts, ha, hs, hv, hf, hcs, hcv, hrem⟩ :=
            ih (db.markSessionsSynced
                ((db.getUnsyncedSessions BATCH_SIZE).map (fun r => r.id)))
              (uploadSessionsToCloud cs branch
                (db.getUnsyncedSessions BATCH_SIZE) true)
              cv outcomes.tail
              (attempts ++ [⟨SyncKind.session,
                (db.getUnsyncedSessions BATCH_SIZE).map (fun r => r.id), true⟩])
              true
          refine ⟨⟨SyncKind.session,
            (db.getUnsyncedSessions BATCH_SIZE).map (fun r => r.id), true⟩ ::
            newAtts, by rw [ha]; simp, ?_, ?_, ?_, ?_, ?_, ?_⟩
          · intro i h
            rcases hs i h with h' | ⟨a, hma, hk, hok, hid⟩
            · rcases (markSessionsSynced_getD db _ i).2 h' with h'' | h''
              · exact Or.inl h''
              · exact Or.inr ⟨_, List.mem_cons_self _ _, rfl, rfl, h''⟩
            · right
              refine ⟨a, List.mem_cons_of_mem _ hma, hk, hok, ?_⟩
              rwa [(markSessionsSynced_getD db _ i).1] at hid
          · intro i h
            rcases hv i h with h' | ⟨a, hma, hk, hok, hid⟩
            · rw [markSessionsSynced_visits] at h'
              exact Or.inl h'
            · right
              refine ⟨a, List.mem_cons_of_mem _ hma, hk, hok, ?_⟩
              rwa [markSessionsSynced_visits] at hid
          · intro pre a post hp hfid
            cases pre with
            | nil =>
              simp only [List.nil_append, List.cons.injEq] at hp
              exact absurd hfid (by simp [← hp.1])
            | cons x pre' =>
              simp only [List.cons_append, List.cons.injEq] at hp
              exact hf pre' a post hp.2 hfid
          · intro b lid h
            exact hcs b lid (cloudHasSessionKey_upload branch _ cs b lid h)
          · intro b lid h
            exact hcv b lid h
          · intro a hma hok
            rcases List.mem_cons.mp hma with rfl | ha'
            · refine ⟨?_, ?_⟩
              · intro _ lid hlid
                obtain ⟨r, hrmem, rfl⟩ := List.mem_map.mp hlid
                exact hcs branch r.id
                  (cloudHasSessionKey_upload_mem branch _ cs r hrmem)
              · intro hk
                exact absurd hk (by simp)
            · exact hrem a ha' hok
        · have h4f : ((db.markSessionsSynced
              ((db.getUnsyncedSessions BATCH_SIZE).map
                (fun r => r.id))).getUnsyncedClientVisits BATCH_SIZE).isEmpty =
              false := Bool.eq_false_iff.mpr h4
          by_cases h5 : outcomes.tail.headD false = true
          · rw [syncDataLoop_eq_scommit_vcommit branch fuel db cs cv outcomes
              attempts anySuccess h1f h3 h4f h5]
            obtain ⟨newAtts, ha, hs, hv, hf, hcs, hcv, hrem⟩ :=
              ih ((db.markSessionsSynced
                    ((db.getUnsyncedSessions BATCH_SIZE).map
                      (fun r => r.id))).markVisitsSynced
                  (((db.markSessionsSynced
                      ((db.getUnsyncedSessions BATCH_SIZE).map
                        (fun r => r.id))).getUnsyncedClientVisits BATCH_SIZE).map
                    (fun r => r.id)))
                (uploadSessionsToCloud cs branch
                  (db.getUnsyncedSessions BATCH_SIZE) true)
                (uploadVisitsToCloud cv branch
                  ((db.markSessionsSynced
                      ((db.getUnsyncedSessions BATCH_SIZE).map
                        (fun r => r.id))).getUnsyncedClientVisits BATCH_SIZE) true)
                outcomes.tail.tail
                ((attempts ++ [⟨SyncKind.session,
                    (db.getUnsyncedSessions BATCH_SIZE).map (fun r => r.id),
                    true⟩]) ++
                  [⟨SyncKind.client_visit,
                    ((db.markSessionsSynced
                        ((db.getUnsyncedSessions BATCH_SIZE).map
                          (fun r => r.id))).getUnsyncedClientVisits
                        BATCH_SIZE).map (fun r => r.id), true⟩])
                true
            refine ⟨⟨SyncKind.session,
              (db.getUnsyncedSessions BATCH_SIZE).map (fun r => r.id), true⟩ ::
              ⟨SyncKind.client_visit,
                ((db.markSessionsSynced
                    ((db.getUnsyncedSessions BATCH_SIZE).map
                      (fun r => r.id))).getUnsyncedClientVisits BATCH_SIZE).map
                  (fun r => r.id), true⟩ :: newAtts,
              by rw [ha]; simp, ?_, ?_, ?_, ?_, ?_, ?_⟩
            · intro i h
              rcases hs i h with h' | ⟨a, hma, hk, hok, hid⟩
              · rw [markVisitsSynced_sessions] at h'
                rcases (markSessionsSynced_getD db _ i).2 h' with h'' | h''
                · exact Or.inl h''
                · exact Or.inr ⟨_, List.mem_cons_self _ _, rfl, rfl, h''⟩
              · right
                rw [markVisitsSynced_sessions,
                  (markSessionsSynced_getD db _ i).1] at hid
                exact ⟨a, List.mem_cons_of_mem _ (List.mem_cons_of_mem _ hma),
                  hk, hok, hid⟩
            · intro i h
              rcases hv i h with h' | ⟨a, hma, hk, hok, hid⟩
              · rcases (markVisitsSynced_getD _ _ i).2 h' with h'' | h''
                · rw [markSessionsSynced_visits] at h''
                  exact Or.inl h''
                · rw [markSessionsSynced_visits] at h''
                  exact Or.inr ⟨_, List.mem_cons_of_mem _ (List.mem_cons_self _ _),
                    rfl, rfl, h''⟩
              · right
                rw [(markVisitsSynced_getD _ _ i).1,
                  markSessionsSynced_visits] at hid
                exact ⟨a, List.mem_cons_of_mem _ (List.mem_cons_of_mem _ hma),
                  hk, hok, hid⟩
            · intro pre a post hp hfid
              cases pre with
              | nil =>
                simp only [List.nil_append, List.cons.injEq] at hp
                exact absurd hfid (by simp [← hp.1])
              | cons x pre' =>
                simp only [List.cons_append, List.cons.injEq] at hp
                cases pre' with
                | nil =>
                  simp only [List.nil_append, List.cons.injEq] at hp
                  exact absurd hfid (by simp [← hp.2.1])
                | cons y pre'' =>
                  simp only [List.cons_append, List.cons.injEq] at hp
                  exact hf pre'' a post hp.2.2 hfid
            · intro b lid h
              exact hcs b lid (cloudHasSessionKey_upload branch _ cs b lid h)
            · intro b lid h
              exact hcv b lid (cloudHasVisitKey_upload branch _ cv b lid h)
            · intro a hma hok
              rcases List.mem_cons.mp hma with rfl | ha'
              · refine ⟨?_, ?_⟩
                · intro _ lid hlid
                  obtain ⟨r, hrmem, rfl⟩ := List.mem_map.mp hlid
                  exact hcs branch r.id
                    (cloudHasSessionKey_upload_mem branch _ cs r hrmem)
                · intro hk
                  exact absurd hk (by simp)
              · rcases List.mem_cons.mp ha' with rfl | ha''
                · refine ⟨?_, ?_⟩
                  · intro hk
                    exact absurd hk (by simp)
                  · intro _ lid hlid
                    obtain ⟨r, hrmem, rfl⟩ := List.mem_map.mp hlid
                    exact hcv branch r.id
                      (cloudHasVisitKey_upload_mem branch _ cv r hrmem)
                · exact hrem a ha'' hok
          · have h5f : outcomes.tail.headD false = false :=
              Bool.eq_false_iff.mpr h5
            rw [syncDataLoop_eq_scommit_vfail branch fuel db cs cv outcomes
              attempts anySuccess h1f h3 h4f h5f]
            refine ⟨⟨SyncKind.session,
              (db.getUnsyncedSessions BATCH_SIZE).map (fun r => r.id), true⟩ ::
              [⟨SyncKind.client_visit,
                ((db.markSessionsSynced
                    ((db.getUnsyncedSessions BATCH_SIZE).map
                      (fun r => r.id))).getUnsyncedClientVisits BATCH_SIZE).map
                  (fun r => r.id), false⟩],
              by simp, ?_, ?_, ?_, ?_, ?_, ?_⟩
            · intro i h
              rcases (markSessionsSynced_getD db _ i).2 h with h'' | h''
              · exact Or.inl h''
              · exact Or.inr ⟨_, List.mem_cons_self _ _, rfl, rfl, h''⟩
            · intro i h
              rw [markSessionsSynced_visits] at h
              exact Or.inl h
            · intro pre a post hp hfid
              cases pre with
              | nil =>
                simp only [List.nil_append, List.cons.injEq] at hp
                exact absurd hfid (by simp [← hp.1])
              | cons x pre' =>
                simp only [List.cons_append, List.cons.injEq] at hp
                cases pre' with
                | nil =>
                  simp only [List.nil_append, List.cons.injEq] at hp
                  obtain ⟨ha1, ha2⟩ := hp.2
                  subst ha2
                  refine ⟨rfl, ?_, ?_⟩
                  · intro hk
                    rw [← ha1] at hk
                    exact absurd hk (by simp)
                  · intro _
                    rw [← ha1]
                | cons y pre'' =>
                  simp only [List.cons_append, List.cons.injEq] at hp
                  exact absurd hp.2.2 (by simp)
            · intro b lid h
              exact cloudHasSessionKey_upload branch _ cs b lid h
            · intro b lid h
              exact h
            · intro a hma hok
              rcases List.mem_cons.mp hma with rfl | ha'
              · refine ⟨?_, ?_⟩
                · intro _ lid hlid
                  obtain ⟨r, hrmem, rfl⟩ := List.mem_map.mp hlid
                  exact cloudHasSessionKey_upload_mem branch _ cs r hrmem
                · intro hk
                  exact absurd hk (by simp)
              · rcases List.mem_singleton.mp ha' with rfl
                exact absurd hok (by simp)
      · have h3f : outcomes.headD false = false := Bool.eq_false_iff.mpr h3
        rw [syncDataLoop_eq_sfail branch fuel db cs cv outcomes attempts
          anySuccess h1f h3f]
        refine ⟨[⟨SyncKind.session,
          (db.getUnsyncedSessions BATCH_SIZE).map (fun r => r.id), false⟩],
          by simp, ?_, ?_, ?_, ?_, ?_, ?_⟩
        · intro i h
          exact Or.inl h
        · intro i h
          exact Or.inl h
        · intro pre a post hp _
          cases pre with
          | nil =>
            simp only [List.nil_append, List.cons.injEq] at hp
            obtain ⟨ha1, ha2⟩ := hp
            subst ha2
            refine ⟨rfl, ?_, ?_⟩
            · intro _
              rw [← ha1]
            · intro hk
              rw [← ha1] at hk
              exact absurd hk (by simp)
          | cons x pre' =>
            simp only [List.cons_append, List.cons.injEq] at hp
            exact absurd hp.2 (by simp)
        · intro b lid h
          exact h
        · intro b lid h
          exact h
        · intro a hma hok
          rcases List.mem_cons.mp hma with rfl | ha'
          · exact absurd hok (by simp)
          · cases ha'

/-- C7: in a non-mock `_sync_data` pass, a record is marked synced locally
only as part of a batch whose remote upsert transaction was confirmed
committed — every key of such a batch is present in the remote store when the
pass ends — and the first batch whose remote write fails ends the pass at
once: the failed attempt is the last one and its records are still exactly
the head of the final local store's unsynced backlog, left for retry. -/
theorem sync_marks_only_after_commit
    (branch : Nat) (db : Database) (cs : List CloudSessionRow)
    (cv : List CloudVisitRow) (outcomes : List Bool) :
    (∀ i : Nat,
      ((syncData branch db cs cv outcomes).db.sessions.getD
          i dummySession).is_synced = 1 →
      (db.sessions.getD i dummySession).is_synced = 1 ∨
      ∃ a ∈ (syncData branch db cs cv outcomes).attempts,
        a.kind = SyncKind.session ∧ a.ok = true ∧
        (db.sessions.getD i dummySession).id ∈ a.ids ∧
        (∀ lid ∈ a.ids, cloudHasSessionKey
          (syncData branch db cs cv outcomes).cloudSessions branch lid = true)) ∧
    (∀ i : Nat,
      ((syncData branch db cs cv outcomes).db.client_visits.getD
          i dummyVisit).is_synced = 1 →
      (db.client_visits.getD i dummyVisit).is_synced = 1 ∨
      ∃ a ∈ (syncData branch db cs cv outcomes).attempts,
        a.kind = SyncKind.client_visit ∧ a.ok = true ∧
        (db.client_visits.getD i dummyVisit).id ∈ a.ids ∧
        (∀ lid ∈ a.ids, cloudHasVisitKey
          (syncData branch db cs cv outcomes).cloudVisits branch lid = true)) ∧
    (∀ pre a post,
      (syncData branch db cs cv outcomes).attempts = pre ++ a :: post →
      a.ok = false →
      post = [] ∧
      (a.kind = SyncKind.session → a.ids =
        ((syncData branch db cs cv outcomes).db.getUnsyncedSessions
          BATCH_SIZE).map (fun r => r.id)) ∧
      (a.kind = SyncKind.client_visit → a.ids =
        ((syncData branch db cs cv outcomes).db.getUnsyncedClientVisits
          BATCH_SIZE).map (fun r => r.id))) := by
  obtain ⟨newAtts, ha, hs, hv, hf, hcs, hcv, hrem⟩ :=
    syncDataLoop_audit branch MAX_BATCHES_PER_CYCLE db cs cv outcomes [] false
  rw [List.nil_append] at ha
  simp only [syncData]
  refine ⟨?_, ?_, ?_⟩
  · intro i h
    rcases hs i h with h' | ⟨a, hma, hk, hok, hid⟩
    · exact Or.inl h'
    · right
      refine ⟨a, by rw [ha]; exact hma, hk, hok, hid, ?_⟩
      exact (hrem a hma hok).1 hk
  · intro i h
    rcases hv i h with h' | ⟨a, hma, hk, hok, hid⟩
    · exact Or.inl h'
    · right
      refine ⟨a, by rw [ha]; exact hma, hk, hok, hid, ?_⟩
      exact (hrem a hma hok).2 hk
  · intro pre a post hp hfid
    rw [ha] at hp
    exact hf pre a post hp hfid

end Cameras
